import Mathlib

/-
Verification development for the comfy-trt model manager and refit utilities.
The definitions below are a shallow embedding of src/comfy_trt/model_manager.py
and src/comfy_trt/utilities.py: Python dicts become association lists keyed by
strings (insertion order preserved, as in CPython), tensor shapes become lists
of integers, floating-point distances become rationals (all distances computed
by the source are sums of integers scaled by powers of 1/2, which float64
represents exactly), and code paths that raise exceptions return none or an
Except error value.
-/

set_option maxHeartbeats 1000000

namespace ComfyTrt

/-! ### Association-list primitives modelling Python dict operations -/

/-- Lookup in an association list, first match wins; models `d[k]` returning
none where Python raises KeyError. -/
def alookup {α : Type} : List (String × α) → String → Option α
  | [], _ => none
  | (k, v) :: rest, key => if k = key then some v else alookup rest key

/-- Assignment `d[k] = v` on a Python dict: replaces the value in place when
the key exists, otherwise appends the new pair at the end. -/
def aset {α : Type} : List (String × α) → String → α → List (String × α)
  | [], key, v => [(key, v)]
  | (k, w) :: rest, key, v =>
    if k = key then (k, v) :: rest else (k, w) :: aset rest key v


/-- Python str.endswith at the character level (String.endsWith is not
kernel-reducible, the character-list suffix test is the same predicate). -/
def endsWithStr (s suffix : String) : Bool := suffix.data.isSuffixOf s.data

/-! ### Data model: profiles, model configs, registry -/

/-- Triple (min, opt, max) of per-dimension shape bounds for one input. -/
abbrev ShapeTriple := List Int × List Int × List Int

/-- Value stored in the profile attribute of a ModelConfig.  The source keeps
either a dict mapping input names to (min, opt, max) shape triples (the
add_entry path) or the literal list [[], [], []] (the add_lora_entry path);
indexing the latter with a string key raises TypeError. -/
inductive ProfileData where
  | dict (entries : List (String × ShapeTriple))
  | raw (shapes : List (List Int))
deriving DecidableEq

/-- Dataclass ModelConfig from model_manager.py, fields in source order. -/
structure ModelConfig where
  profile : ProfileData
  static_shapes : Bool
  fp32 : Bool
  baseline_model : String
  inpaint : Bool
  refit : Bool
  lora : Bool
  vram : Int
  unet_hidden_dim : Int
deriving DecidableEq

/-- Reading self.profile[k] with a string key: succeeds only when the profile
is a dict containing k (a raw list profile raises TypeError, a missing key
raises KeyError). -/
def tripleOf : ProfileData → String → Option ShapeTriple
  | .dict entries, k => alookup entries k
  | .raw _, _ => none

/-- Loop body of ModelConfig.is_compatible_from_dict.  Each feed item reads
the profile triple for its key (exception when absent, modelled as none),
forms the elementwise residuals r_min = max - v, r_opt = abs (opt - v),
r_max = v - min exactly as the source does (note the source names r_min and
r_max describe the bound they involve, not the residual value), rejects when
any residual is negative returning the distance accumulated so far, and
otherwise adds r_opt.sum + 0.5 * (r_max.sum + 0.5 * r_min.sum).  Tensor
arithmetic requires matching lengths; a mismatch raises, modelled as none. -/
def compatFromDictGo (p : ProfileData) : List (String × List Int) → Rat → Option (Bool × Rat)
  | [], acc => some (true, acc)
  | (k, v) :: rest, acc =>
    match tripleOf p k with
    | none => none
    | some (gmin, gopt, gmax) =>
      if v.length = gmin.length ∧ v.length = gopt.length ∧ v.length = gmax.length then
        let r_min := List.zipWith (fun a b => a - b) gmax v
        let r_opt := List.zipWith (fun a b => |a - b|) gopt v
        let r_max := List.zipWith (fun a b => a - b) v gmin
        if r_min.any (fun a => decide (a < 0)) || r_max.any (fun a => decide (a < 0)) then
          some (false, acc)
        else
          compatFromDictGo p rest
            (acc + ((r_opt.sum : Int) : Rat)
              + (1 / 2 : Rat) * (((r_max.sum : Int) : Rat) + (1 / 2 : Rat) * ((r_min.sum : Int) : Rat)))
      else none

/-- ModelConfig.is_compatible_from_dict: the feed maps input names to shapes
(the source reads v.shape of each supplied tensor). -/
def ModelConfig.is_compatible_from_dict (cfg : ModelConfig)
    (feed : List (String × List Int)) : Option (Bool × Rat) :=
  compatFromDictGo cfg.profile feed 0

/-- ModelConfig.is_compatible: the scalar query form.  Derived values are
batch = batch_size * 2 and the floor divisions width // 8, height // 8 (Python
floor division is Int.fdiv).  Bounds are tested in source order with
short-circuit evaluation, each list index access raising IndexError (none)
when out of range; a rejection returns the distance variable still holding 0. -/
def ModelConfig.is_compatible (cfg : ModelConfig)
    (width height batch_size max_embedding : Int) : Option (Bool × Rat) :=
  match tripleOf cfg.profile "sample", tripleOf cfg.profile "encoder_hidden_states" with
  | some (smin, sopt, smax), some (emin, _eopt, emax) =>
    let batch := batch_size * 2
    let w := Int.fdiv width 8
    let h := Int.fdiv height 8
    match smin.get? 0 with
    | none => none
    | some smin0 =>
    if smin0 > batch then some (false, 0) else
    match smax.get? 0 with
    | none => none
    | some smax0 =>
    if smax0 < batch then some (false, 0) else
    match smin.get? 2 with
    | none => none
    | some smin2 =>
    if smin2 > h then some (false, 0) else
    match smax.get? 2 with
    | none => none
    | some smax2 =>
    if smax2 < h then some (false, 0) else
    match smin.get? 3 with
    | none => none
    | some smin3 =>
    if smin3 > w then some (false, 0) else
    match smax.get? 3 with
    | none => none
    | some smax3 =>
    if smax3 < w then some (false, 0) else
    match emin.get? 1 with
    | none => none
    | some emin1 =>
    if emin1 > max_embedding then some (false, 0) else
    match emax.get? 1 with
    | none => none
    | some emax1 =>
    if emax1 < max_embedding then some (false, 0) else
    match sopt.get? 0, sopt.get? 2, sopt.get? 3 with
    | some sopt0, some sopt2, some sopt3 =>
      some (true, ((|sopt0 - batch| + |sopt2 - h| + |sopt3 - w| : Int) : Rat)
        + (1 / 2 : Rat) * ((|smax2 - h| + |smax3 - w| : Int) : Rat))
    | _, _, _ => none
  | _, _ => none

/-- Predicate: the profile lookup for this feed item succeeds and the shape
lengths agree with the triple, so no exception is raised for it. -/
def entryDefined (p : ProfileData) (kv : String × List Int) : Bool :=
  match tripleOf p kv.1 with
  | none => false
  | some (gmin, gopt, gmax) =>
    decide (kv.2.length = gmin.length) && decide (kv.2.length = gopt.length)
      && decide (kv.2.length = gmax.length)

/-- Predicate: no dimension of this feed item exceeds max or falls below min. -/
def entryInBounds (p : ProfileData) (kv : String × List Int) : Bool :=
  match tripleOf p kv.1 with
  | none => false
  | some (gmin, _gopt, gmax) =>
    !((List.zipWith (fun a b => a - b) gmax kv.2).any (fun a => decide (a < 0)))
      && !((List.zipWith (fun a b => a - b) kv.2 gmin).any (fun a => decide (a < 0)))

/-- Amount added to the running distance for one accepted feed item:
sum of abs (opt - v) plus 0.5 * (sum (v - min) + 0.5 * sum (max - v)). -/
def entrySummand (p : ProfileData) (kv : String × List Int) : Rat :=
  match tripleOf p kv.1 with
  | none => 0
  | some (gmin, gopt, gmax) =>
    (((List.zipWith (fun a b => |a - b|) gopt kv.2).sum : Int) : Rat)
      + (1 / 2 : Rat) * ((((List.zipWith (fun a b => a - b) kv.2 gmin).sum : Int) : Rat)
        + (1 / 2 : Rat) * (((List.zipWith (fun a b => a - b) gmax kv.2).sum : Int) : Rat))


/-- Registry entry: the dicts appended by add_entry ({filepath, config}) and
add_lora_entry ({filepath, base_model, config}). -/
structure RegEntry where
  filepath : String
  base_model : Option String
  config : ModelConfig
deriving DecidableEq

/-- The two-level registry: compute-capability tag to base-model name to
entry list, both levels insertion-ordered dicts. -/
abbrev Registry := List (String × List (String × List RegEntry))

/-- In-memory ModelManager state: the cc tag string and all_models. -/
structure MMState where
  cc : String
  all_models : Registry
deriving DecidableEq

/-! ### ModelManager operations -/

/-- ModelManager.get_trt_path filename part: the derived artifact filename is
"_".join([model_name, cc]) + ".trt".  The profile hash the source computes in
this method is dead code (its join is commented out and the list is unused),
so the name depends only on the model name and the cc tag. -/
def get_trt_path (cc model_name : String) : String :=
  model_name ++ "_" ++ cc ++ ".trt"

/-- ModelManager.add_entry: builds the ModelConfig positionally, creates the
cc and base-model keys when absent, and appends {filepath, config}. -/
def add_entry (st : MMState) (model_name : String) (profile : ProfileData)
    (static_shapes fp32 : Bool) (baseline_model : String) (inpaint refit : Bool)
    (vram : Int) (unet_hidden_dim : Int) (lora : Bool) : MMState :=
  let config : ModelConfig :=
    ⟨profile, static_shapes, fp32, baseline_model, inpaint, refit, lora, vram, unet_hidden_dim⟩
  let trt_name := get_trt_path st.cc model_name
  let ccMap := (alookup st.all_models st.cc).getD []
  let entries := (alookup ccMap model_name).getD []
  { st with
      all_models := aset st.all_models st.cc
        (aset ccMap model_name (entries ++ [⟨trt_name, none, config⟩])) }

/-- ModelManager.add_lora_entry: reads self.all_models[self.cc] (KeyError when
the cc key is absent, modelled as none) and replaces the lora_name key with a
one-element list whose config has the literal profile [[], [], []] and forced
flags static_shapes=False, refit=True, lora=True. -/
def add_lora_entry (st : MMState) (base_model lora_name trt_lora_path : String)
    (fp32 : Bool) (baseline_model : String) (inpaint : Bool)
    (vram : Int) (unet_hidden_dim : Int) : Option MMState :=
  match alookup st.all_models st.cc with
  | none => none
  | some ccMap =>
    let config : ModelConfig :=
      ⟨.raw [[], [], []], false, fp32, baseline_model, inpaint, true, true, vram, unet_hidden_dim⟩
    some { st with
        all_models := aset st.all_models st.cc
          (aset ccMap lora_name [⟨trt_lora_path, some base_model, config⟩]) }

/-- ModelManager.update given the listing of the artifact directory: keeps
.trt files only, then for each cc and base model drops the base-model key when
no entry filepath is among them; otherwise it assigns the ORIGINAL entry list
back (the filtered tmp_config_list the source builds is discarded), so
surviving keys keep their lists unchanged.  Caveat on the drop path: the
source pops from the very dict it is iterating (all_models.copy() is shallow),
which CPython reports as a RuntimeError on the next iteration step after the
key is removed in memory; this model keeps the intended final mapping with
the key removed and does not represent that error.  The theorems below use
update only on inputs where no key is dropped, except the always-true
preservation property. -/
def update (diskFiles : List String) (reg : Registry) : Registry :=
  let trt_engines := diskFiles.filter (fun f => endsWithStr f ".trt")
  reg.map (fun p =>
    (p.1, p.2.filter (fun q => q.2.any (fun m => trt_engines.contains m.filepath))))

/-- ModelManager.available_models: self.all_models.get(self.cc, {}). -/
def available_models (st : MMState) : List (String × List RegEntry) :=
  (alookup st.all_models st.cc).getD []

/-- Loop of get_valid_models_from_dict over the entry list; an exception from
is_compatible_from_dict propagates (none). -/
def gvFromDictGo (feed : List (String × List Int)) :
    List RegEntry → Option (List RegEntry × List Rat)
  | [] => some ([], [])
  | m :: rest =>
    match m.config.is_compatible_from_dict feed with
    | none => none
    | some (valid, dist) =>
      match gvFromDictGo feed rest with
      | none => none
      | some (vs, ds) =>
        some (if valid then m :: vs else vs, if valid then dist :: ds else ds)

/-- ModelManager.get_valid_models_from_dict: models[base_model] raises
KeyError (none) when the base-model key is absent from available_models. -/
def get_valid_models_from_dict (st : MMState) (base_model : String)
    (feed : List (String × List Int)) : Option (List RegEntry × List Rat) :=
  match alookup (available_models st) base_model with
  | none => none
  | some models => gvFromDictGo feed models

/-- Loop of get_valid_models over the entry list. -/
def gvScalarGo (width height batch_size max_embedding : Int) :
    List RegEntry → Option (List RegEntry × List Rat)
  | [] => some ([], [])
  | m :: rest =>
    match m.config.is_compatible width height batch_size max_embedding with
    | none => none
    | some (valid, dist) =>
      match gvScalarGo width height batch_size max_embedding rest with
      | none => none
      | some (vs, ds) =>
        some (if valid then m :: vs else vs, if valid then dist :: ds else ds)

/-- ModelManager.get_valid_models, the scalar query form. -/
def get_valid_models (st : MMState) (base_model : String)
    (width height batch_size max_embedding : Int) : Option (List RegEntry × List Rat) :=
  match alookup (available_models st) base_model with
  | none => none
  | some models => gvScalarGo width height batch_size max_embedding models

/-! ### Registry persistence: write_json / read_json

The json module itself is an external collaborator; what the repository
contributes is the shape of the document (ModelConfigEncoder.default returning
the dataclass attribute dict) and the reconstruction in read_json, which
replaces each entry's "config" value by ModelConfig(**record).  We model the
document as a JSON value tree. -/

/-- JSON values as produced by json.dump / consumed by json.load for the
registry file (no floats or nulls occur in this document). -/
inductive Json where
  | jbool (b : Bool)
  | jint (n : Int)
  | jstr (s : String)
  | jarr (items : List Json)
  | jobj (fields : List (String × Json))

/-- Encoding of one shape list. -/
def encodeShape (l : List Int) : Json := .jarr (l.map .jint)

/-- Encoding of a (min, opt, max) triple. -/
def encodeTriple (t : ShapeTriple) : Json :=
  .jarr [encodeShape t.1, encodeShape t.2.1, encodeShape t.2.2]

/-- Encoding of the profile attribute: a dict profile serializes as an object,
the literal lora profile [[], [], []] as an array of arrays. -/
def encodeProfile : ProfileData → Json
  | .dict entries => .jobj (entries.map (fun e => (e.1, encodeTriple e.2)))
  | .raw shapes => .jarr (shapes.map encodeShape)

/-- ModelConfigEncoder.default: the dataclass attribute dict, in field order. -/
def encodeModelConfig (c : ModelConfig) : Json :=
  .jobj [("profile", encodeProfile c.profile),
    ("static_shapes", .jbool c.static_shapes),
    ("fp32", .jbool c.fp32),
    ("baseline_model", .jstr c.baseline_model),
    ("inpaint", .jbool c.inpaint),
    ("refit", .jbool c.refit),
    ("lora", .jbool c.lora),
    ("vram", .jint c.vram),
    ("unet_hidden_dim", .jint c.unet_hidden_dim)]

/-- Encoding of one registry entry dict ({filepath, base_model?, config}). -/
def encodeEntry (e : RegEntry) : Json :=
  .jobj ([("filepath", .jstr e.filepath)]
    ++ (match e.base_model with
        | some b => [("base_model", .jstr b)]
        | none => [])
    ++ [("config", encodeModelConfig e.config)])

/-- ModelManager.write_json as a document: json.dump(self.all_models, ...,
cls=ModelConfigEncoder). -/
def write_json (reg : Registry) : Json :=
  .jobj (reg.map (fun cc =>
    (cc.1, Json.jobj (cc.2.map (fun base =>
      (base.1, Json.jarr (base.2.map encodeEntry)))))))

/-- Decoding helper for integers. -/
def decodeInt : Json → Option Int
  | .jint n => some n
  | _ => none

/-- Decoding helper for booleans. -/
def decodeBool : Json → Option Bool
  | .jbool b => some b
  | _ => none

/-- Decoding helper for strings. -/
def decodeStr : Json → Option String
  | .jstr s => some s
  | _ => none

/-- Sequences a decoding function over a list (mapM in the Option monad). -/
def optMapM {β : Type} (f : Json → Option β) : List Json → Option (List β)
  | [] => some []
  | j :: rest =>
    match f j, optMapM f rest with
    | some v, some r => some (v :: r)
    | _, _ => none

/-- Decoding of one shape list. -/
def decodeShape : Json → Option (List Int)
  | .jarr items => optMapM decodeInt items
  | _ => none

/-- Decoding of a (min, opt, max) triple: destructuring a 3-element sequence. -/
def decodeTriple : Json → Option ShapeTriple
  | .jarr [a, b, c] =>
    match decodeShape a, decodeShape b, decodeShape c with
    | some x, some y, some z => some (x, y, z)
    | _, _, _ => none
  | _ => none

/-- Applies a decoding function to every value of a JSON-object field list,
keeping the keys. -/
def mapValues {β : Type} (f : Json → Option β) :
    List (String × Json) → Option (List (String × β))
  | [] => some []
  | (k, j) :: rest =>
    match f j, mapValues f rest with
    | some v, some r => some ((k, v) :: r)
    | _, _ => none

/-- Decoding of the profile attribute (object gives a dict profile, array the
raw lora profile). -/
def decodeProfile : Json → Option ProfileData
  | .jobj fields => (mapValues decodeTriple fields).map .dict
  | .jarr items => (optMapM decodeShape items).map .raw
  | _ => none

/-- Keyword names accepted by the ModelConfig dataclass constructor. -/
def modelConfigKeys : List String :=
  ["profile", "static_shapes", "fp32", "baseline_model", "inpaint", "refit",
   "lora", "vram", "unet_hidden_dim"]

/-- ModelConfig(**record): every required field must be present with the right
type, unet_hidden_dim defaults to 4, and an unexpected keyword is a TypeError. -/
def decodeModelConfig : Json → Option ModelConfig
  | .jobj fields =>
    if fields.all (fun f => decide (f.1 ∈ modelConfigKeys)) then
      match alookup fields "profile" with
      | none => none
      | some pj =>
      match decodeProfile pj with
      | none => none
      | some p =>
      match (alookup fields "static_shapes").bind decodeBool,
          (alookup fields "fp32").bind decodeBool,
          (alookup fields "baseline_model").bind decodeStr,
          (alookup fields "inpaint").bind decodeBool,
          (alookup fields "refit").bind decodeBool,
          (alookup fields "lora").bind decodeBool,
          (alookup fields "vram").bind decodeInt with
      | some ss, some f32, some bm, some inp, some rf, some lo, some vr =>
        match fields.filter (fun f => f.1 = "unet_hidden_dim") with
        | [] => some ⟨p, ss, f32, bm, inp, rf, lo, vr, 4⟩
        | _ =>
          match (alookup fields "unet_hidden_dim").bind decodeInt with
          | some hid => some ⟨p, ss, f32, bm, inp, rf, lo, vr, hid⟩
          | none => none
      | _, _, _, _, _, _, _ => none
    else none
  | _ => none

/-- Decoding of one registry entry: the surrounding record keeps its filepath
and optional base_model fields and read_json rebuilds only the config field. -/
def decodeEntry : Json → Option RegEntry
  | .jobj fields =>
    match (alookup fields "filepath").bind decodeStr with
    | none => none
    | some fp =>
      match fields.filter (fun f => f.1 = "base_model") with
      | [] =>
        match (alookup fields "config").bind decodeModelConfig with
        | some cfg => some ⟨fp, none, cfg⟩
        | none => none
      | _ =>
        match (alookup fields "base_model").bind decodeStr,
            (alookup fields "config").bind decodeModelConfig with
        | some bm, some cfg => some ⟨fp, some bm, cfg⟩
        | _, _ => none
  | _ => none

/-- Decoding of an entry list. -/
def decodeEntryList : Json → Option (List RegEntry)
  | .jarr items => optMapM decodeEntry items
  | _ => none

/-- Decoding of one compute-capability block. -/
def decodeCcMap : Json → Option (List (String × List RegEntry))
  | .jobj bases => mapValues decodeEntryList bases
  | _ => none

/-- ModelManager.read_json with encode_config=True: json.load the document
and rebuild every config record as a ModelConfig instance. -/
def read_json (j : Json) : Option Registry :=
  match j with
  | .jobj ccs => mapValues decodeCcMap ccs
  | _ => none

/-! ### utilities.py: weight roles, graph nodes, refit construction -/

/-- trt.WeightsRole as used by change_trt_layer_name: kernel, bias, or any
other role (the wildcard branch of the match). -/
inductive WRole where
  | kernel
  | bias
  | other
deriving DecidableEq

/-- change_trt_layer_name: role-suffixed canonical name for specialized roles. -/
def change_trt_layer_name (layer_name : String) : WRole → String
  | .kernel => layer_name ++ "_TRTKERNEL"
  | .bias => layer_name ++ "_TRTBIAS"
  | .other => layer_name

/-- Numpy array payload of a graph constant: dtype tag, shape, and an opaque
data token (the refit claims do not inspect numeric contents). -/
structure NpArray where
  dtype : String
  shape : List Nat
  payload : Int
deriving DecidableEq

/-- Graph tensor reference: gs.Constant carries values (isConst = true);
gs.Variable has no values attribute, so reading values raises. -/
structure RTensor where
  name : String
  isConst : Bool
  values : NpArray
deriving DecidableEq

/-- Graph node from onnx_graphsurgeon: operator kind, node name, inputs and
outputs in order. -/
structure RNode where
  op : String
  name : String
  inputs : List RTensor
  outputs : List RTensor
deriving DecidableEq

/-- Name map from refit-graph weight names to original-graph names. -/
abbrev NameMap := List (String × String)

/-- Else-branch of the name-map construction: for every input slot of the
original node holding a gs.Constant, map refit_node.inputs[i].name to the
constant's name; indexing the refit inputs raises IndexError when too short. -/
def mapConstInputs : NameMap → List RTensor → List RTensor → Except String NameMap
  | acc, [], _ => .ok acc
  | acc, inp :: rest, [] =>
    if inp.isConst then .error "IndexError" else mapConstInputs acc rest []
  | acc, inp :: rest, ri :: rrest =>
    mapConstInputs (if inp.isConst then aset acc ri.name inp.name else acc) rest rrest

/-- Processing of one aligned node pair in the name-map loop of Engine.refit.
The assertion node.op == refit_node.op comes first; an AssertionError or
IndexError aborts the walk. -/
def buildNameMapStep (acc : NameMap) (node refit_node : RNode) : Except String NameMap :=
  if node.op ≠ refit_node.op then .error "AssertionError: node.op == refit_node.op"
  else if node.op = "Constant" then
    match refit_node.outputs.head?, node.outputs.head? with
    | some ro, some o => .ok (aset acc ro.name o.name)
    | _, _ => .error "IndexError"
  else if node.op = "Conv" then
    match node.inputs.get? 1 with
    | none => .error "IndexError"
    | some i1 =>
      let acc1 := if i1.isConst
        then aset acc (refit_node.name ++ "_TRTKERNEL") (node.name ++ "_TRTKERNEL")
        else acc
      match node.inputs.get? 2 with
      | none => .error "IndexError"
      | some i2 =>
        .ok (if i2.isConst
          then aset acc1 (refit_node.name ++ "_TRTBIAS") (node.name ++ "_TRTBIAS")
          else acc1)
  else mapConstInputs acc node.inputs refit_node.inputs

/-- Loop of the name-map construction over the enumerated original nodes,
reading refit_nodes[n] (IndexError when the refit list is shorter).  An error
value carries the partial map accumulated before the failing pair, recording
that nothing was produced for subsequent nodes. -/
def buildNameMapGo : NameMap → List RNode → List RNode → Except (String × NameMap) NameMap
  | acc, [], _ => .ok acc
  | acc, _ :: _, [] => .error ("IndexError", acc)
  | acc, node :: orest, rnode :: rrest =>
    match buildNameMapStep acc node rnode with
    | .error e => .error (e, acc)
    | .ok acc2 => buildNameMapGo acc2 orest rrest

/-- Name-map construction of Engine.refit over the two toposorted node lists. -/
def buildNameMap (orig refit : List RNode) : Except (String × NameMap) NameMap :=
  buildNameMapGo [] orig refit

/-- Working weight-update set: canonical name to an optional value, None
meaning unset (the source initializes every canonical engine name to None). -/
abbrev RefitDict := List (String × Option NpArray)

/-- Initialization loop over refitter.get_all(): canonicalize each
(layer_name, role) pair and assert the name was not seen before. -/
def initRefitDictGo : RefitDict → List (String × WRole) → Except String RefitDict
  | acc, [] => .ok acc
  | acc, (layer_name, role) :: rest =>
    let name := change_trt_layer_name layer_name role
    if (alookup acc name).isSome then .error ("Found duplicate layer: " ++ name)
    else initRefitDictGo (acc ++ [(name, none)]) rest

/-- Initialization of the refit dictionary from the engine weight list. -/
def initRefitDict (all_weights : List (String × WRole)) : Except String RefitDict :=
  initRefitDictGo [] all_weights

/-- The 0-dimensional int64 narrowing applied before recording a value. -/
def narrowInt64 (v : NpArray) : NpArray :=
  if v.dtype = "int64" ∧ v.shape = [] then { v with dtype := "int32" } else v

/-- add_to_map: writes only names known to the dict, asserting the slot is
still None; a second write to a set slot raises AssertionError. -/
def add_to_map (d : RefitDict) (name : String) (values : NpArray) : Except String RefitDict :=
  match alookup d name with
  | none => .ok d
  | some (some _) => .error "AssertionError: refit_dict[name] is None"
  | some none => .ok (aset d name (some (narrowInt64 values)))

/-- map_name: name_map[name] when present, else the name unchanged. -/
def map_name (nm : NameMap) (name : String) : String :=
  (alookup nm name).getD name

/-- Reading tensor.values: raises AttributeError on a gs.Variable. -/
def valuesOf (t : RTensor) : Except String NpArray :=
  if t.isConst then .ok t.values else .error "AttributeError: values"

/-- A bare try/except around a dict-building action: on any exception the
dict is left as it was and the error is only logged. -/
def catchD (e : Except String RefitDict) (d : RefitDict) : RefitDict :=
  match e with
  | .ok d2 => d2
  | .error _ => d

/-- Inputs loop of the final else branch of the node walk: constants are
added with NO surrounding try/except, so an assertion failure propagates. -/
def processOtherInputs (nm : NameMap) : RefitDict → List RTensor → Except String RefitDict
  | d, [] => .ok d
  | d, inp :: rest =>
    let name := map_name nm inp.name
    if inp.isConst then
      match add_to_map d name inp.values with
      | .error e => .error e
      | .ok d2 => processOtherInputs nm d2 rest
    else processOtherInputs nm d rest

/-- Node walk body of Engine.refit.  For Constant nodes the outputs[0] access
is outside the try block (IndexError propagates) but the values read and
add_to_map call are inside it (exceptions caught and logged); for Conv nodes
each add_to_map call sits in its own try block while the inputs[1] and
inputs[2] accesses are outside; for all other ops add_to_map is unguarded. -/
def processNode (nm : NameMap) (d : RefitDict) (n : RNode) : Except String RefitDict :=
  if n.op = "Constant" then
    match n.outputs.head? with
    | none => .error "IndexError"
    | some out =>
      let name := map_name nm out.name
      .ok (catchD ((valuesOf out).bind (fun v => add_to_map d name v)) d)
  else if n.op = "Conv" then
    match n.inputs.get? 1 with
    | none => .error "IndexError"
    | some i1 =>
      let d1 := if i1.isConst
        then catchD (add_to_map d (map_name nm (n.name ++ "_TRTKERNEL")) i1.values) d
        else d
      match n.inputs.get? 2 with
      | none => .error "IndexError"
      | some i2 =>
        .ok (if i2.isConst
          then catchD (add_to_map d1 (map_name nm (n.name ++ "_TRTBIAS")) i2.values) d1
          else d1)
  else processOtherInputs nm d n.inputs

/-- Walk over all refit-graph nodes. -/
def processNodes (nm : NameMap) : RefitDict → List RNode → Except String RefitDict
  | d, [] => .ok d
  | d, n :: rest =>
    match processNode nm d n with
    | .error e => .error e
    | .ok d2 => processNodes nm d2 rest

/-- The weight-update-set construction phase of Engine.refit: name map from
the two graphs, refit dict initialization from the engine weights, then the
refit-graph node walk. -/
def refitBuild (origNodes refitNodes : List RNode) (all_weights : List (String × WRole)) :
    Except String RefitDict :=
  match buildNameMap origNodes refitNodes with
  | .error e => .error e.1
  | .ok nm =>
    match initRefitDict all_weights with
    | .error e => .error e
    | .ok d0 => processNodes nm d0 refitNodes


/-! ### Auxiliary predicates and spec-modelled definitions -/

/-- Success condition of mapConstInputs: every constant input slot of the
original node has a refit counterpart. -/
def constInputsOk : List RTensor → List RTensor → Bool
  | [], _ => true
  | inp :: rest, [] => !inp.isConst && constInputsOk rest []
  | _ :: rest, _ :: rrest => constInputsOk rest rrest

/-- Per-pair well-formedness: the node accesses of one alignment step stay in
range, so the step can only fail on the operator assertion. -/
def pairOk (node rnode : RNode) : Bool :=
  if node.op = "Constant" then node.outputs.head?.isSome && rnode.outputs.head?.isSome
  else if node.op = "Conv" then (node.inputs.get? 1).isSome && (node.inputs.get? 2).isSome
  else constInputsOk node.inputs rnode.inputs

/-- Per-key duplicate-freedom of compiled file references. -/
def nodupFilepaths (reg : Registry) : Prop :=
  ∀ p ∈ reg, ∀ q ∈ p.2, ((q.2.map (fun e : RegEntry => e.filepath)).Nodup)

/-- Modelled from the spec: the accumulated distance exactly as the spec words
it, sum over all inputs and dimensions of abs (opt - v) + 0.5 * ((max - v)
+ 0.5 * (v - min)).  Declared only to compare the spec formula with the
source computation; the source (entrySummand) weights (v - min) by 0.5 and
(max - v) by 0.25 instead. -/
def specEntrySummand (p : ProfileData) (kv : String × List Int) : Rat :=
  match tripleOf p kv.1 with
  | none => 0
  | some (gmin, gopt, gmax) =>
    (((List.zipWith (fun a b => |a - b|) gopt kv.2).sum : Int) : Rat)
      + (1 / 2 : Rat) * ((((List.zipWith (fun a b => a - b) gmax kv.2).sum : Int) : Rat)
        + (1 / 2 : Rat) * (((List.zipWith (fun a b => a - b) kv.2 gmin).sum : Int) : Rat))

/-- Modelled from the spec: total claimed distance over a feed. -/
def specDistanceFromDict (p : ProfileData) (feed : List (String × List Int)) : Rat :=
  (feed.map (specEntrySummand p)).sum

/-- Validity flag an entry would report for a dict request (false also on the
exception path, which the filtering theorem excludes by hypothesis). -/
def compatValid (feed : List (String × List Int)) (m : RegEntry) : Bool :=
  match m.config.is_compatible_from_dict feed with
  | some (valid, _) => valid
  | none => false

/-- Distance an entry would report for a dict request. -/
def compatDist (feed : List (String × List Int)) (m : RegEntry) : Rat :=
  match m.config.is_compatible_from_dict feed with
  | some (_, dist) => dist
  | none => 0

/-- Validity flag an entry would report for a scalar request. -/
def compatValidScalar (width height batch_size max_embedding : Int) (m : RegEntry) : Bool :=
  match m.config.is_compatible width height batch_size max_embedding with
  | some (valid, _) => valid
  | none => false

/-- Distance an entry would report for a scalar request. -/
def compatDistScalar (width height batch_size max_embedding : Int) (m : RegEntry) : Rat :=
  match m.config.is_compatible width height batch_size max_embedding with
  | some (_, dist) => dist
  | none => 0

/-! ### Theorems -/

@[simp] theorem alookup_nil {α : Type} (key : String) :
    alookup ([] : List (String × α)) key = none := rfl

@[simp] theorem alookup_cons {α : Type} (k : String) (v : α) (rest : List (String × α))
    (key : String) :
    alookup ((k, v) :: rest) key = if k = key then some v else alookup rest key := rfl

theorem alookup_aset_self {α : Type} (l : List (String × α)) (key : String) (v : α) :
    alookup (aset l key v) key = some v := by
  induction l with
  | nil => simp [aset]
  | cons p rest ih =>
    obtain ⟨k, w⟩ := p
    by_cases h : k = key
    · simp [aset, h]
    · simp [aset, h, ih]

theorem compatFromDictGo_accepted (p : ProfileData) :
    ∀ (feed : List (String × List Int)) (acc : Rat),
    (∀ kv ∈ feed, entryDefined p kv = true ∧ entryInBounds p kv = true) →
    compatFromDictGo p feed acc = some (true, acc + (feed.map (entrySummand p)).sum) := by
  intro feed
  induction feed with
  | nil => intro acc _; simp [compatFromDictGo]
  | cons kv rest ih =>
    intro acc h
    obtain ⟨k, v⟩ := kv
    obtain ⟨hd, hb⟩ := h (k, v) (List.mem_cons_self _ _)
    cases htr : tripleOf p k with
    | none => simp [entryDefined, htr] at hd
    | some t =>
      obtain ⟨gmin, gopt, gmax⟩ := t
      simp only [entryDefined, htr, Bool.and_eq_true, decide_eq_true_eq] at hd
      simp only [entryInBounds, htr, Bool.and_eq_true, Bool.not_eq_true'] at hb
      simp only [compatFromDictGo, htr]
      rw [if_pos (show v.length = gmin.length ∧ v.length = gopt.length ∧ v.length = gmax.length
        from ⟨hd.1.1, hd.1.2, hd.2⟩)]
      rw [hb.1, hb.2]
      simp only [Bool.or_self, Bool.false_eq_true, if_false]
      rw [ih _ (fun kv hkv => h kv (List.mem_cons_of_mem _ hkv))]
      have : entrySummand p (k, v)
          = (((List.zipWith (fun a b => |a - b|) gopt v).sum : Int) : Rat)
            + (1 / 2 : Rat) * ((((List.zipWith (fun a b => a - b) v gmin).sum : Int) : Rat)
              + (1 / 2 : Rat) * (((List.zipWith (fun a b => a - b) gmax v).sum : Int) : Rat)) := by
        simp [entrySummand, htr]
      simp only [List.map_cons, List.sum_cons, this]
      congr 2
      ring

theorem compatFromDictGo_defined (p : ProfileData) :
    ∀ (feed : List (String × List Int)) (acc : Rat),
    (∀ kv ∈ feed, entryDefined p kv = true) →
    ∃ d, compatFromDictGo p feed acc = some (feed.all (entryInBounds p), d) := by
  intro feed
  induction feed with
  | nil => intro acc _; exact ⟨acc, by simp [compatFromDictGo]⟩
  | cons kv rest ih =>
    intro acc h
    obtain ⟨k, v⟩ := kv
    have hd := h (k, v) (List.mem_cons_self _ _)
    cases htr : tripleOf p k with
    | none => simp [entryDefined, htr] at hd
    | some t =>
      obtain ⟨gmin, gopt, gmax⟩ := t
      simp only [entryDefined, htr, Bool.and_eq_true, decide_eq_true_eq] at hd
      by_cases hin : entryInBounds p (k, v) = true
      · simp only [entryInBounds, htr, Bool.and_eq_true, Bool.not_eq_true'] at hin
        obtain ⟨d, hrec⟩ := ih _ (fun kv hkv => h kv (List.mem_cons_of_mem _ hkv))
        refine ⟨d, ?_⟩
        simp only [compatFromDictGo, htr]
        rw [if_pos (show v.length = gmin.length ∧ v.length = gopt.length ∧ v.length = gmax.length
          from ⟨hd.1.1, hd.1.2, hd.2⟩)]
        rw [hin.1, hin.2]
        simp only [Bool.or_self, Bool.false_eq_true, if_false]
        rw [hrec]
        have hall : ((k, v) :: rest).all (entryInBounds p) = rest.all (entryInBounds p) := by
          simp only [List.all_cons]
          rw [show entryInBounds p (k, v) = true from ?_]
          · simp
          · simp only [entryInBounds, htr, Bool.and_eq_true, Bool.not_eq_true']
            exact hin
        rw [hall]
      · refine ⟨acc, ?_⟩
        simp only [entryInBounds, htr, Bool.and_eq_true, Bool.not_eq_true',
          not_and_or, Bool.not_eq_false] at hin
        simp only [compatFromDictGo, htr]
        rw [if_pos (show v.length = gmin.length ∧ v.length = gopt.length ∧ v.length = gmax.length
          from ⟨hd.1.1, hd.1.2, hd.2⟩)]
        have hcond : ((List.zipWith (fun a b => a - b) gmax v).any (fun a => decide (a < 0))
            || (List.zipWith (fun a b => a - b) v gmin).any (fun a => decide (a < 0))) = true := by
          rcases hin with h1 | h2
          · simp [h1]
          · simp [h2]
        rw [hcond]
        simp only [if_true]
        have hall : ((k, v) :: rest).all (entryInBounds p) = false := by
          simp only [List.all_cons, Bool.and_eq_false_iff]
          left
          simp only [entryInBounds, htr]
          rcases hin with h1 | h2
          · simp [h1]
          · simp [h2]
        rw [hall]

theorem mapM_decode_encode {α : Type} (f : Json → Option α) (g : α → Json)
    (hfg : ∀ x, f (g x) = some x) :
    ∀ l : List α, optMapM f (l.map g) = some l := by
  intro l
  induction l with
  | nil => rfl
  | cons x rest ih => simp [optMapM, hfg, ih]

theorem decodeShape_encodeShape (l : List Int) : decodeShape (encodeShape l) = some l := by
  simpa [decodeShape, encodeShape] using mapM_decode_encode decodeInt .jint (fun _ => rfl) l

theorem decodeTriple_encodeTriple (t : ShapeTriple) :
    decodeTriple (encodeTriple t) = some t := by
  obtain ⟨a, b, c⟩ := t
  simp [decodeTriple, encodeTriple, decodeShape_encodeShape]

theorem mapValues_encode {β : Type} (f : Json → Option β) (g : β → Json)
    (hfg : ∀ x, f (g x) = some x) :
    ∀ l : List (String × β), mapValues f (l.map (fun e => (e.1, g e.2))) = some l := by
  intro l
  induction l with
  | nil => rfl
  | cons kv rest ih =>
    obtain ⟨k, v⟩ := kv
    simp only [List.map_cons, mapValues, hfg, ih]

theorem decodeProfile_encodeProfile (p : ProfileData) :
    decodeProfile (encodeProfile p) = some p := by
  cases p with
  | dict entries =>
    simp [decodeProfile, encodeProfile,
      mapValues_encode decodeTriple encodeTriple decodeTriple_encodeTriple]
  | raw shapes =>
    simp [decodeProfile, encodeProfile,
      mapM_decode_encode decodeShape encodeShape decodeShape_encodeShape]

theorem decodeModelConfig_encodeModelConfig (c : ModelConfig) :
    decodeModelConfig (encodeModelConfig c) = some c := by
  obtain ⟨p, ss, f32, bm, inp, rf, lo, vr, hid⟩ := c
  simp [decodeModelConfig, encodeModelConfig, modelConfigKeys, alookup,
    decodeProfile_encodeProfile, decodeBool, decodeStr, decodeInt]

theorem decodeEntry_encodeEntry (e : RegEntry) : decodeEntry (encodeEntry e) = some e := by
  obtain ⟨fp, bm, cfg⟩ := e
  cases bm with
  | none =>
    simp [decodeEntry, encodeEntry, alookup, decodeStr,
      decodeModelConfig_encodeModelConfig]
  | some b =>
    simp [decodeEntry, encodeEntry, alookup, decodeStr,
      decodeModelConfig_encodeModelConfig]

theorem decodeEntryList_encode (l : List RegEntry) :
    decodeEntryList (.jarr (l.map encodeEntry)) = some l := by
  simpa [decodeEntryList] using
    mapM_decode_encode decodeEntry encodeEntry decodeEntry_encodeEntry l

theorem decodeCcMap_encode (m : List (String × List RegEntry)) :
    decodeCcMap (.jobj (m.map (fun base => (base.1, Json.jarr (base.2.map encodeEntry)))))
      = some m := by
  simpa [decodeCcMap] using
    mapValues_encode decodeEntryList (fun es => Json.jarr (es.map encodeEntry))
      decodeEntryList_encode m

theorem is_compatible_accepted (cfg : ModelConfig) (width height batch_size max_embedding : Int)
    (smin sopt smax emin eopt emax : List Int)
    (smin0 smax0 smin2 smax2 smin3 smax3 emin1 emax1 sopt0 sopt2 sopt3 : Int)
    (hS : tripleOf cfg.profile "sample" = some (smin, sopt, smax))
    (hE : tripleOf cfg.profile "encoder_hidden_states" = some (emin, eopt, emax))
    (g1 : smin.get? 0 = some smin0) (g2 : smax.get? 0 = some smax0)
    (g3 : smin.get? 2 = some smin2) (g4 : smax.get? 2 = some smax2)
    (g5 : smin.get? 3 = some smin3) (g6 : smax.get? 3 = some smax3)
    (g7 : emin.get? 1 = some emin1) (g8 : emax.get? 1 = some emax1)
    (g9 : sopt.get? 0 = some sopt0) (g10 : sopt.get? 2 = some sopt2)
    (g11 : sopt.get? 3 = some sopt3)
    (b1 : smin0 ≤ batch_size * 2) (b2 : batch_size * 2 ≤ smax0)
    (b3 : smin2 ≤ Int.fdiv height 8) (b4 : Int.fdiv height 8 ≤ smax2)
    (b5 : smin3 ≤ Int.fdiv width 8) (b6 : Int.fdiv width 8 ≤ smax3)
    (b7 : emin1 ≤ max_embedding) (b8 : max_embedding ≤ emax1) :
    cfg.is_compatible width height batch_size max_embedding
      = some (true,
        ((|sopt0 - batch_size * 2| + |sopt2 - Int.fdiv height 8|
            + |sopt3 - Int.fdiv width 8| : Int) : Rat)
          + (1 / 2 : Rat) * ((|smax2 - Int.fdiv height 8|
            + |smax3 - Int.fdiv width 8| : Int) : Rat)) := by
  rw [ModelConfig.is_compatible, hS, hE]
  simp only [g1, g2, g3, g4, g5, g6, g7, g8, g9, g10, g11]
  rw [if_neg (not_lt.mpr b1), if_neg (not_lt.mpr b2), if_neg (not_lt.mpr b3),
    if_neg (not_lt.mpr b4), if_neg (not_lt.mpr b5), if_neg (not_lt.mpr b6),
    if_neg (not_lt.mpr b7), if_neg (not_lt.mpr b8)]

theorem alookup_append {α : Type} (l1 l2 : List (String × α)) (k : String) :
    alookup (l1 ++ l2) k
      = match alookup l1 k with
        | some v => some v
        | none => alookup l2 k := by
  induction l1 with
  | nil => simp
  | cons p rest ih =>
    obtain ⟨a, b⟩ := p
    by_cases h : a = k
    · simp [h]
    · simp [h, ih]

theorem mapConstInputs_ok :
    ∀ (o r : List RTensor) (acc : NameMap), constInputsOk o r = true →
    ∃ m, mapConstInputs acc o r = .ok m := by
  intro o
  induction o with
  | nil => intro r acc _; exact ⟨acc, rfl⟩
  | cons inp rest ih =>
    intro r acc h
    cases r with
    | nil =>
      rw [constInputsOk] at h
      simp only [Bool.and_eq_true, Bool.not_eq_true'] at h
      rw [mapConstInputs, h.1]
      exact ih [] acc h.2
    | cons ri rrest =>
      rw [constInputsOk] at h
      exact ih rrest _ h

theorem buildNameMapStep_ok (acc : NameMap) (node rnode : RNode)
    (hop : node.op = rnode.op) (hok : pairOk node rnode = true) :
    ∃ acc2, buildNameMapStep acc node rnode = .ok acc2 := by
  rw [buildNameMapStep, if_neg (by simp [hop])]
  by_cases hc : node.op = "Constant"
  · rw [if_pos hc]
    rw [pairOk, if_pos hc] at hok
    simp only [Bool.and_eq_true, Option.isSome_iff_exists] at hok
    obtain ⟨⟨o, ho⟩, ⟨ro, hro⟩⟩ := hok
    rw [ho, hro]
    exact ⟨_, rfl⟩
  · rw [if_neg hc]
    by_cases hv : node.op = "Conv"
    · rw [if_pos hv]
      rw [pairOk, if_neg hc, if_pos hv] at hok
      simp only [Bool.and_eq_true, Option.isSome_iff_exists] at hok
      obtain ⟨⟨i1, h1⟩, ⟨i2, h2⟩⟩ := hok
      rw [h1, h2]
      exact ⟨_, rfl⟩
    · rw [if_neg hv]
      rw [pairOk, if_neg hc, if_neg hv] at hok
      exact mapConstInputs_ok _ _ _ hok

theorem buildNameMapGo_ok :
    ∀ (orig refit : List RNode) (acc : NameMap), orig.length ≤ refit.length →
    (∀ pr ∈ List.zip orig refit, pr.1.op = pr.2.op ∧ pairOk pr.1 pr.2 = true) →
    ∃ m, buildNameMapGo acc orig refit = .ok m := by
  intro orig
  induction orig with
  | nil => intro refit acc _ _; exact ⟨acc, rfl⟩
  | cons node orest ih =>
    intro refit acc hlen hall
    cases refit with
    | nil => simp at hlen
    | cons rnode rrest =>
      obtain ⟨hop, hok⟩ := hall (node, rnode) (by simp [List.zip_cons_cons])
      obtain ⟨acc2, hstep⟩ := buildNameMapStep_ok acc node rnode hop hok
      rw [buildNameMapGo, hstep]
      exact ih rrest acc2 (by simpa using hlen)
        (fun pr hpr => hall pr (by simp [List.zip_cons_cons, hpr]))

theorem buildNameMapGo_append (ys bs : List RNode) :
    ∀ (xs as : List RNode) (acc m : NameMap), xs.length = as.length →
    buildNameMapGo acc xs as = .ok m →
    buildNameMapGo acc (xs ++ ys) (as ++ bs) = buildNameMapGo m ys bs := by
  intro xs
  induction xs with
  | nil =>
    intro as acc m hlen h
    have : as = [] := List.length_eq_zero.mp hlen.symm
    subst this
    rw [buildNameMapGo] at h
    simp only [Except.ok.injEq] at h
    subst h
    rfl
  | cons x xrest ih =>
    intro as acc m hlen h
    cases as with
    | nil => simp at hlen
    | cons a arest =>
      rw [buildNameMapGo] at h
      cases hstep : buildNameMapStep acc x a with
      | error e => rw [hstep] at h; exact absurd h (by simp)
      | ok acc2 =>
        rw [hstep] at h
        simp only [List.cons_append]
        rw [buildNameMapGo, hstep]
        exact ih arest acc2 m (by simpa using hlen) h

theorem initRefitDictGo_ok_nodup :
    ∀ (ws : List (String × WRole)) (acc : RefitDict) (d : RefitDict),
    initRefitDictGo acc ws = .ok d →
    (ws.map (fun pr => change_trt_layer_name pr.1 pr.2)).Nodup
      ∧ ∀ n ∈ ws.map (fun pr => change_trt_layer_name pr.1 pr.2), alookup acc n = none := by
  intro ws
  induction ws with
  | nil => intro acc d _; exact ⟨List.nodup_nil, by simp⟩
  | cons pr rest ih =>
    intro acc d h
    obtain ⟨l, r⟩ := pr
    rw [initRefitDictGo] at h
    by_cases hs : (alookup acc (change_trt_layer_name l r)).isSome
    · rw [if_pos hs] at h
      exact absurd h (by simp)
    · rw [if_neg hs] at h
      obtain ⟨hnodup, hnone⟩ := ih _ _ h
      have haccnone : alookup acc (change_trt_layer_name l r) = none :=
        Option.not_isSome_iff_eq_none.mp hs
      have hnotmem : change_trt_layer_name l r
          ∉ rest.map (fun pr => change_trt_layer_name pr.1 pr.2) := by
        intro hmem
        have := hnone _ hmem
        rw [alookup_append, haccnone] at this
        simp [alookup] at this
      refine ⟨by simp only [List.map_cons, List.nodup_cons]; exact ⟨hnotmem, hnodup⟩, ?_⟩
      intro n hn
      simp only [List.map_cons, List.mem_cons] at hn
      rcases hn with hn | hn
      · exact hn ▸ haccnone
      · have := hnone n hn
        rw [alookup_append] at this
        cases hacc : alookup acc n with
        | none => rfl
        | some v => rw [hacc] at this; exact absurd this (by simp)

theorem abs_farther_cast (o v1 v2 : Int)
    (hside : (v2 ≤ v1 ∧ v1 ≤ o) ∨ (o ≤ v1 ∧ v1 ≤ v2)) :
    |(o : Rat) - v1| ≤ |(o : Rat) - v2| := by
  rcases hside with ⟨h21, h1o⟩ | ⟨ho1, h12⟩
  · have c21 : (v2 : Rat) ≤ v1 := by exact_mod_cast h21
    have c1o : (v1 : Rat) ≤ o := by exact_mod_cast h1o
    rw [abs_of_nonneg (show (0 : Rat) ≤ (o : Rat) - v1 by linarith),
      abs_of_nonneg (show (0 : Rat) ≤ (o : Rat) - v2 by linarith)]
    linarith
  · have co1 : (o : Rat) ≤ v1 := by exact_mod_cast ho1
    have c12 : (v1 : Rat) ≤ v2 := by exact_mod_cast h12
    rw [abs_of_nonpos (show (o : Rat) - v1 ≤ 0 by linarith),
      abs_of_nonpos (show (o : Rat) - v2 ≤ 0 by linarith)]
    linarith

theorem hw_pair_mono (o x v1 v2 : Int) (hv2x : v2 ≤ x) (hox : o ≤ x)
    (hside : (v2 ≤ v1 ∧ v1 ≤ o) ∨ (o ≤ v1 ∧ v1 ≤ v2)) :
    |(o : Rat) - v1| + (1 / 2 : Rat) * |(x : Rat) - v1|
      ≤ |(o : Rat) - v2| + (1 / 2 : Rat) * |(x : Rat) - v2| := by
  have cx2 : (v2 : Rat) ≤ x := by exact_mod_cast hv2x
  have cox : (o : Rat) ≤ x := by exact_mod_cast hox
  rcases hside with ⟨h21, h1o⟩ | ⟨ho1, h12⟩
  · have c21 : (v2 : Rat) ≤ v1 := by exact_mod_cast h21
    have c1o : (v1 : Rat) ≤ o := by exact_mod_cast h1o
    rw [abs_of_nonneg (show (0 : Rat) ≤ (o : Rat) - v1 by linarith),
      abs_of_nonneg (show (0 : Rat) ≤ (o : Rat) - v2 by linarith),
      abs_of_nonneg (show (0 : Rat) ≤ (x : Rat) - v1 by linarith),
      abs_of_nonneg (show (0 : Rat) ≤ (x : Rat) - v2 by linarith)]
    linarith
  · have co1 : (o : Rat) ≤ v1 := by exact_mod_cast ho1
    have c12 : (v1 : Rat) ≤ v2 := by exact_mod_cast h12
    rw [abs_of_nonpos (show (o : Rat) - v1 ≤ 0 by linarith),
      abs_of_nonpos (show (o : Rat) - v2 ≤ 0 by linarith),
      abs_of_nonneg (show (0 : Rat) ≤ (x : Rat) - v1 by linarith),
      abs_of_nonneg (show (0 : Rat) ≤ (x : Rat) - v2 by linarith)]
    linarith

theorem entrySummand_index_mono (p : ProfileData) (k : String)
    (ma mb oa ob xa xb : List Int) (m0 o0 x0 : Int) (a bdims : List Int) (v1 v2 : Int)
    (hTr : tripleOf p k = some (ma ++ m0 :: mb, oa ++ o0 :: ob, xa ++ x0 :: xb))
    (hma : ma.length = a.length) (hoa : oa.length = a.length) (hxa : xa.length = a.length)
    (hside : (v2 ≤ v1 ∧ v1 ≤ o0) ∨ (o0 ≤ v1 ∧ v1 ≤ v2)) :
    entrySummand p (k, a ++ v1 :: bdims) ≤ entrySummand p (k, a ++ v2 :: bdims) := by
  have split : ∀ v : Int,
      entrySummand p (k, a ++ v :: bdims)
        = (((List.zipWith (fun q r => |q - r|) oa a).sum : Int) : Rat)
          + (((List.zipWith (fun q r => |q - r|) ob bdims).sum : Int) : Rat)
          + |(o0 : Rat) - v|
          + (1 / 2 : Rat) * ((((List.zipWith (fun q r => q - r) a ma).sum : Int) : Rat)
            + (((List.zipWith (fun q r => q - r) bdims mb).sum : Int) : Rat)
            + ((v : Rat) - (m0 : Rat)))
          + (1 / 4 : Rat) * ((((List.zipWith (fun q r => q - r) xa a).sum : Int) : Rat)
            + (((List.zipWith (fun q r => q - r) xb bdims).sum : Int) : Rat)
            + ((x0 : Rat) - (v : Rat))) := by
    intro v
    simp only [entrySummand, hTr]
    rw [List.zipWith_append _ oa (o0 :: ob) a (v :: bdims) hoa,
      List.zipWith_append _ a (v :: bdims) ma (m0 :: mb) hma.symm,
      List.zipWith_append _ xa (x0 :: xb) a (v :: bdims) hxa]
    simp only [List.zipWith_cons_cons, List.sum_append, List.sum_cons]
    push_cast
    ring
  rw [split v1, split v2]
  have key := abs_farther_cast o0 v1 v2 hside
  rcases hside with ⟨h21, h1o⟩ | ⟨ho1, h12⟩
  · have c21 : (v2 : Rat) ≤ v1 := by exact_mod_cast h21
    have c1o : (v1 : Rat) ≤ o0 := by exact_mod_cast h1o
    rw [abs_of_nonneg (show (0 : Rat) ≤ (o0 : Rat) - v1 by linarith),
      abs_of_nonneg (show (0 : Rat) ≤ (o0 : Rat) - v2 by linarith)]
    linarith
  · have c12 : (v1 : Rat) ≤ v2 := by exact_mod_cast h12
    linarith

/-- C1 counterexample: with profile x mapped to (min, opt, max) = ([0], [0], [4])
and requested shape [1], every dimension is accepted and the source returns
distance 9/4 = abs(0-1) + 0.5*((1-0) + 0.5*(4-1)), while the formula stated by
the claim gives 11/4 = abs(0-1) + 0.5*((4-1) + 0.5*(1-0)); the two differ, so
the claim as stated is false on the code. -/
theorem c1_counterexample :
    (⟨.dict [("x", ([0], [0], [4]))], false, false, "sd1.5", false, false, false, 0, 4⟩
        : ModelConfig).is_compatible_from_dict [("x", [1])] = some (true, 9 / 4)
    ∧ specDistanceFromDict (.dict [("x", ([0], [0], [4]))]) [("x", [1])] = 11 / 4
    ∧ (9 / 4 : Rat) ≠ 11 / 4 := by
  refine ⟨?_, ?_, by norm_num⟩
  · simp [ModelConfig.is_compatible_from_dict, compatFromDictGo, tripleOf, alookup]
    norm_num
  · simp [specDistanceFromDict, specEntrySummand, tripleOf, alookup]
    norm_num

/-- C1 (amended): for every ModelConfig and every request whose named inputs
are all present in the profile with matching dimension counts,
is_compatible_from_dict returns (True, d) where d is the sum over all inputs
and dimensions of abs(opt - v) + 0.5*((v - min) + 0.5*(max - v)) — the
0.5 and 0.25 weights sit on (v - min) and (max - v), the opposite of the
claim wording — and it returns (False, _) exactly when some requested
dimension is above max or below min. -/
theorem c1_from_dict_result (cfg : ModelConfig) (feed : List (String × List Int))
    (hdef : ∀ kv ∈ feed, entryDefined cfg.profile kv = true) :
    ((∀ kv ∈ feed, entryInBounds cfg.profile kv = true) →
      cfg.is_compatible_from_dict feed
        = some (true, (feed.map (entrySummand cfg.profile)).sum))
    ∧ ((∃ kv ∈ feed, entryInBounds cfg.profile kv = false) →
      ∃ d, cfg.is_compatible_from_dict feed = some (false, d)) := by
  constructor
  · intro hin
    rw [ModelConfig.is_compatible_from_dict,
      compatFromDictGo_accepted cfg.profile feed 0 (fun kv hkv => ⟨hdef kv hkv, hin kv hkv⟩),
      zero_add]
  · intro hex
    obtain ⟨d, hd⟩ := compatFromDictGo_defined cfg.profile feed 0 hdef
    refine ⟨d, ?_⟩
    rw [ModelConfig.is_compatible_from_dict, hd]
    obtain ⟨kv, hkv, hfalse⟩ := hex
    have : feed.all (entryInBounds cfg.profile) = false := by
      rw [List.all_eq_false]
      exact ⟨kv, hkv, by simp [hfalse]⟩
    rw [this]

/-- C1 witness: a concrete accepted request through the amended theorem. -/
theorem c1_from_dict_result_witness :
    ∃ d, (⟨.dict [("x", ([0], [1], [4]))], false, false, "sd1.5", false, false, false, 0, 4⟩
      : ModelConfig).is_compatible_from_dict [("x", [2])] = some (true, d) :=
  ⟨_, (c1_from_dict_result _ [("x", [2])] (by decide)).1 (by decide)⟩

/-- C2 (code bug evidence): reconcile is claimed to drop every entry whose
compiled file is absent from disk, but update assigns the original entry list
back instead of the filtered tmp_config_list it builds, so with disk listing
["a.trt"] the registry keeping entries a.trt and b.trt is returned unchanged:
the b.trt entry survives although "b.trt" is a .trt name not on disk. -/
theorem c2_update_keeps_missing_entry :
    update ["a.trt"]
        [("cc86", [("m",
          [⟨"a.trt", none, ⟨.dict [], false, false, "sd1.5", false, false, false, 0, 4⟩⟩,
           ⟨"b.trt", none, ⟨.dict [], false, false, "sd1.5", false, false, false, 0, 4⟩⟩])])]
      = [("cc86", [("m",
          [⟨"a.trt", none, ⟨.dict [], false, false, "sd1.5", false, false, false, 0, 4⟩⟩,
           ⟨"b.trt", none, ⟨.dict [], false, false, "sd1.5", false, false, false, 0, 4⟩⟩])])]
    ∧ "b.trt" ∉ (["a.trt"] : List String)
    ∧ endsWithStr "b.trt" ".trt" = true := by
  refine ⟨by decide, by decide, by decide⟩

/-- C3 counterexample: for the spec scenario profile
sample = ([1,4,64,64], [2,4,64,64], [4,4,96,96]) the query width=512,
height=512, batch_size=1, max_embedding=77 is accepted and all compared
dimensions equal opt (1*2 = 2 = opt[0], 512/8 = 64 = opt[2] = opt[3]), yet the
distance is 32, not 0, because the source adds 0.5*(abs(max[2]-h)
+ abs(max[3]-w)) = 0.5*(32+32). -/
theorem c3_counterexample :
    (⟨.dict [("sample", ([1, 4, 64, 64], [2, 4, 64, 64], [4, 4, 96, 96])),
        ("encoder_hidden_states", ([1, 77], [2, 77], [4, 77]))],
      false, false, "sd1.5", false, true, false, 0, 4⟩
        : ModelConfig).is_compatible 512 512 1 77 = some (true, 32)
    ∧ (1 * 2 : Int) = 2 ∧ Int.fdiv 512 8 = 64
    ∧ (32 : Rat) ≠ 0 := by
  refine ⟨?_, by norm_num, by decide, by norm_num⟩
  simp [ModelConfig.is_compatible, tripleOf, alookup]
  norm_num

/-- C3 (amended): for every accepted scalar query the distance is 0 iff the
derived batch, height and width equal the sample profile opt dims 0, 2, 3 AND
height and width also equal the max dims 2 and 3 (the extra max condition is
forced by the 0.5-weighted max terms of the source formula); the spec
scenario query is accepted with distance 32. -/
theorem c3_distance_zero_iff :
    (∀ (cfg : ModelConfig) (width height batch_size max_embedding : Int)
      (smin sopt smax emin eopt emax : List Int)
      (smin0 smax0 smin2 smax2 smin3 smax3 emin1 emax1 sopt0 sopt2 sopt3 : Int),
      tripleOf cfg.profile "sample" = some (smin, sopt, smax) →
      tripleOf cfg.profile "encoder_hidden_states" = some (emin, eopt, emax) →
      smin.get? 0 = some smin0 → smax.get? 0 = some smax0 →
      smin.get? 2 = some smin2 → smax.get? 2 = some smax2 →
      smin.get? 3 = some smin3 → smax.get? 3 = some smax3 →
      emin.get? 1 = some emin1 → emax.get? 1 = some emax1 →
      sopt.get? 0 = some sopt0 → sopt.get? 2 = some sopt2 → sopt.get? 3 = some sopt3 →
      smin0 ≤ batch_size * 2 → batch_size * 2 ≤ smax0 →
      smin2 ≤ Int.fdiv height 8 → Int.fdiv height 8 ≤ smax2 →
      smin3 ≤ Int.fdiv width 8 → Int.fdiv width 8 ≤ smax3 →
      emin1 ≤ max_embedding → max_embedding ≤ emax1 →
      ∃ dist, cfg.is_compatible width height batch_size max_embedding = some (true, dist)
        ∧ (dist = 0 ↔ (batch_size * 2 = sopt0 ∧ Int.fdiv height 8 = sopt2
            ∧ Int.fdiv width 8 = sopt3 ∧ Int.fdiv height 8 = smax2
            ∧ Int.fdiv width 8 = smax3)))
    ∧ (⟨.dict [("sample", ([1, 4, 64, 64], [2, 4, 64, 64], [4, 4, 96, 96])),
        ("encoder_hidden_states", ([1, 77], [2, 77], [4, 77]))],
      false, false, "sd1.5", false, true, false, 0, 4⟩
        : ModelConfig).is_compatible 512 512 1 77 = some (true, 32) := by
  constructor
  · intro cfg width height batch_size max_embedding smin sopt smax emin eopt emax
      smin0 smax0 smin2 smax2 smin3 smax3 emin1 emax1 sopt0 sopt2 sopt3
      hS hE g1 g2 g3 g4 g5 g6 g7 g8 g9 g10 g11 b1 b2 b3 b4 b5 b6 b7 b8
    refine ⟨_, is_compatible_accepted cfg width height batch_size max_embedding
      smin sopt smax emin eopt emax smin0 smax0 smin2 smax2 smin3 smax3
      emin1 emax1 sopt0 sopt2 sopt3 hS hE g1 g2 g3 g4 g5 g6 g7 g8 g9 g10 g11
      b1 b2 b3 b4 b5 b6 b7 b8, ?_⟩
    set b := batch_size * 2 with hb
    set hh := Int.fdiv height 8 with hhh
    set ww := Int.fdiv width 8 with hww
    constructor
    · intro h0
      push_cast at h0
      have c1 : (0 : Rat) ≤ |(sopt0 : Rat) - (b : Rat)| := abs_nonneg _
      have c2 : (0 : Rat) ≤ |(sopt2 : Rat) - (hh : Rat)| := abs_nonneg _
      have c3 : (0 : Rat) ≤ |(sopt3 : Rat) - (ww : Rat)| := abs_nonneg _
      have c4 : (0 : Rat) ≤ |(smax2 : Rat) - (hh : Rat)| := abs_nonneg _
      have c5 : (0 : Rat) ≤ |(smax3 : Rat) - (ww : Rat)| := abs_nonneg _
      have z1 : |(sopt0 : Rat) - (b : Rat)| = 0 := by linarith
      have z2 : |(sopt2 : Rat) - (hh : Rat)| = 0 := by linarith
      have z3 : |(sopt3 : Rat) - (ww : Rat)| = 0 := by linarith
      have z4 : |(smax2 : Rat) - (hh : Rat)| = 0 := by linarith
      have z5 : |(smax3 : Rat) - (ww : Rat)| = 0 := by linarith
      have w1 : (sopt0 : Rat) = (b : Rat) := sub_eq_zero.mp (abs_eq_zero.mp z1)
      have w2 : (sopt2 : Rat) = (hh : Rat) := sub_eq_zero.mp (abs_eq_zero.mp z2)
      have w3 : (sopt3 : Rat) = (ww : Rat) := sub_eq_zero.mp (abs_eq_zero.mp z3)
      have w4 : (smax2 : Rat) = (hh : Rat) := sub_eq_zero.mp (abs_eq_zero.mp z4)
      have w5 : (smax3 : Rat) = (ww : Rat) := sub_eq_zero.mp (abs_eq_zero.mp z5)
      refine ⟨?_, ?_, ?_, ?_, ?_⟩
      · exact_mod_cast w1.symm
      · exact_mod_cast w2.symm
      · exact_mod_cast w3.symm
      · exact_mod_cast w4.symm
      · exact_mod_cast w5.symm
    · rintro ⟨e1, e2, e3, e4, e5⟩
      rw [← e1, ← e2, ← e3, ← e4, ← e5]
      norm_num
  · simp [ModelConfig.is_compatible, tripleOf, alookup]
    norm_num

/-- C3 witness: a profile with opt = max on the height and width dims makes
the amended zero-distance characterization attainable. -/
theorem c3_distance_zero_iff_witness :
    ∃ dist, (⟨.dict [("sample", ([1, 4, 64, 64], [2, 4, 64, 64], [2, 4, 64, 64])),
        ("encoder_hidden_states", ([1, 77], [2, 77], [4, 77]))],
      false, false, "sd1.5", false, true, false, 0, 4⟩
        : ModelConfig).is_compatible 512 512 1 77 = some (true, dist)
      ∧ (dist = 0 ↔ ((1 : Int) * 2 = 2 ∧ Int.fdiv 512 8 = 64
          ∧ Int.fdiv 512 8 = 64 ∧ Int.fdiv 512 8 = 64 ∧ Int.fdiv 512 8 = 64)) :=
  c3_distance_zero_iff.1
    ⟨.dict [("sample", ([1, 4, 64, 64], [2, 4, 64, 64], [2, 4, 64, 64])),
        ("encoder_hidden_states", ([1, 77], [2, 77], [4, 77]))],
      false, false, "sd1.5", false, true, false, 0, 4⟩
    512 512 1 77
    [1, 4, 64, 64] [2, 4, 64, 64] [2, 4, 64, 64] [1, 77] [2, 77] [4, 77]
    1 2 64 64 64 64 77 77 2 64 64
    (by decide) (by decide) (by decide) (by decide) (by decide) (by decide)
    (by decide) (by decide) (by decide) (by decide) (by decide) (by decide)
    (by decide) (by decide) (by decide) (by decide) (by decide) (by decide)
    (by decide) (by decide) (by decide)

/-- C4: in both query forms, moving a single compared dimension farther from
opt on the same side, while both requests stay accepted, never decreases the
compatibility distance.  The dict form is stated for a feed differing in one
dimension of one input; the scalar form is stated componentwise on the derived
batch, height and width values (max_embedding never contributes to the
distance). -/
theorem c4_distance_monotone :
    (∀ (cfg : ModelConfig) (pre post : List (String × List Int)) (k : String)
      (ma mb oa ob xa xb : List Int) (m0 o0 x0 : Int) (a bdims : List Int) (v1 v2 : Int),
      tripleOf cfg.profile k = some (ma ++ m0 :: mb, oa ++ o0 :: ob, xa ++ x0 :: xb) →
      ma.length = a.length → oa.length = a.length → xa.length = a.length →
      m0 ≤ o0 → o0 ≤ x0 →
      ((v2 ≤ v1 ∧ v1 ≤ o0) ∨ (o0 ≤ v1 ∧ v1 ≤ v2)) →
      (∀ kv ∈ pre ++ (k, a ++ v1 :: bdims) :: post,
        entryDefined cfg.profile kv = true ∧ entryInBounds cfg.profile kv = true) →
      (∀ kv ∈ pre ++ (k, a ++ v2 :: bdims) :: post,
        entryDefined cfg.profile kv = true ∧ entryInBounds cfg.profile kv = true) →
      ∃ d1 d2,
        cfg.is_compatible_from_dict (pre ++ (k, a ++ v1 :: bdims) :: post) = some (true, d1)
        ∧ cfg.is_compatible_from_dict (pre ++ (k, a ++ v2 :: bdims) :: post) = some (true, d2)
        ∧ d1 ≤ d2)
    ∧ (∀ (cfg : ModelConfig) (width1 height1 bs1 me1 width2 height2 bs2 me2 : Int)
      (smin sopt smax emin eopt emax : List Int)
      (smin0 smax0 smin2 smax2 smin3 smax3 emin1 emax1 sopt0 sopt2 sopt3 : Int),
      tripleOf cfg.profile "sample" = some (smin, sopt, smax) →
      tripleOf cfg.profile "encoder_hidden_states" = some (emin, eopt, emax) →
      smin.get? 0 = some smin0 → smax.get? 0 = some smax0 →
      smin.get? 2 = some smin2 → smax.get? 2 = some smax2 →
      smin.get? 3 = some smin3 → smax.get? 3 = some smax3 →
      emin.get? 1 = some emin1 → emax.get? 1 = some emax1 →
      sopt.get? 0 = some sopt0 → sopt.get? 2 = some sopt2 → sopt.get? 3 = some sopt3 →
      sopt2 ≤ smax2 → sopt3 ≤ smax3 →
      smin0 ≤ bs1 * 2 → bs1 * 2 ≤ smax0 →
      smin2 ≤ Int.fdiv height1 8 → Int.fdiv height1 8 ≤ smax2 →
      smin3 ≤ Int.fdiv width1 8 → Int.fdiv width1 8 ≤ smax3 →
      emin1 ≤ me1 → me1 ≤ emax1 →
      smin0 ≤ bs2 * 2 → bs2 * 2 ≤ smax0 →
      smin2 ≤ Int.fdiv height2 8 → Int.fdiv height2 8 ≤ smax2 →
      smin3 ≤ Int.fdiv width2 8 → Int.fdiv width2 8 ≤ smax3 →
      emin1 ≤ me2 → me2 ≤ emax1 →
      ((bs2 * 2 ≤ bs1 * 2 ∧ bs1 * 2 ≤ sopt0) ∨ (sopt0 ≤ bs1 * 2 ∧ bs1 * 2 ≤ bs2 * 2)) →
      ((Int.fdiv height2 8 ≤ Int.fdiv height1 8 ∧ Int.fdiv height1 8 ≤ sopt2)
        ∨ (sopt2 ≤ Int.fdiv height1 8 ∧ Int.fdiv height1 8 ≤ Int.fdiv height2 8)) →
      ((Int.fdiv width2 8 ≤ Int.fdiv width1 8 ∧ Int.fdiv width1 8 ≤ sopt3)
        ∨ (sopt3 ≤ Int.fdiv width1 8 ∧ Int.fdiv width1 8 ≤ Int.fdiv width2 8)) →
      ∃ d1 d2,
        cfg.is_compatible width1 height1 bs1 me1 = some (true, d1)
        ∧ cfg.is_compatible width2 height2 bs2 me2 = some (true, d2)
        ∧ d1 ≤ d2) := by
  constructor
  · intro cfg pre post k ma mb oa ob xa xb m0 o0 x0 a bdims v1 v2
      hTr hma hoa hxa hmo hox hside hacc1 hacc2
    refine ⟨_, _,
      by rw [ModelConfig.is_compatible_from_dict,
        compatFromDictGo_accepted cfg.profile _ 0 hacc1, zero_add],
      by rw [ModelConfig.is_compatible_from_dict,
        compatFromDictGo_accepted cfg.profile _ 0 hacc2, zero_add],
      ?_⟩
    simp only [List.map_append, List.map_cons, List.sum_append, List.sum_cons]
    have := entrySummand_index_mono cfg.profile k ma mb oa ob xa xb m0 o0 x0
      a bdims v1 v2 hTr hma hoa hxa hside
    linarith
  · intro cfg width1 height1 bs1 me1 width2 height2 bs2 me2
      smin sopt smax emin eopt emax
      smin0 smax0 smin2 smax2 smin3 smax3 emin1 emax1 sopt0 sopt2 sopt3
      hS hE g1 g2 g3 g4 g5 g6 g7 g8 g9 g10 g11 ho2x ho3x
      a1 a2 a3 a4 a5 a6 a7 a8 b1 b2 b3 b4 b5 b6 b7 b8 sb sh sw
    refine ⟨_, _,
      is_compatible_accepted cfg width1 height1 bs1 me1 smin sopt smax emin eopt emax
        smin0 smax0 smin2 smax2 smin3 smax3 emin1 emax1 sopt0 sopt2 sopt3
        hS hE g1 g2 g3 g4 g5 g6 g7 g8 g9 g10 g11 a1 a2 a3 a4 a5 a6 a7 a8,
      is_compatible_accepted cfg width2 height2 bs2 me2 smin sopt smax emin eopt emax
        smin0 smax0 smin2 smax2 smin3 smax3 emin1 emax1 sopt0 sopt2 sopt3
        hS hE g1 g2 g3 g4 g5 g6 g7 g8 g9 g10 g11 b1 b2 b3 b4 b5 b6 b7 b8,
      ?_⟩
    have kb := abs_farther_cast sopt0 (bs1 * 2) (bs2 * 2) sb
    have kh := hw_pair_mono sopt2 smax2 (Int.fdiv height1 8) (Int.fdiv height2 8) b4 ho2x sh
    have kw := hw_pair_mono sopt3 smax3 (Int.fdiv width1 8) (Int.fdiv width2 8) b6 ho3x sw
    push_cast at kb kh kw ⊢
    linarith

/-- C4 witness: concrete monotone pairs for both query forms. -/
theorem c4_distance_monotone_witness :
    (∃ d1 d2,
      (⟨.dict [("sample", ([1, 4, 64, 64], [2, 4, 64, 64], [4, 4, 96, 96])),
          ("encoder_hidden_states", ([1, 77], [2, 77], [4, 77]))],
        false, false, "sd1.5", false, true, false, 0, 4⟩
          : ModelConfig).is_compatible_from_dict [("sample", [2, 4, 64, 64])]
        = some (true, d1)
      ∧ (⟨.dict [("sample", ([1, 4, 64, 64], [2, 4, 64, 64], [4, 4, 96, 96])),
          ("encoder_hidden_states", ([1, 77], [2, 77], [4, 77]))],
        false, false, "sd1.5", false, true, false, 0, 4⟩
          : ModelConfig).is_compatible_from_dict [("sample", [2, 4, 80, 64])]
        = some (true, d2)
      ∧ d1 ≤ d2)
    ∧ (∃ d1 d2,
      (⟨.dict [("sample", ([1, 4, 64, 64], [2, 4, 64, 64], [4, 4, 96, 96])),
          ("encoder_hidden_states", ([1, 77], [2, 77], [4, 77]))],
        false, false, "sd1.5", false, true, false, 0, 4⟩
          : ModelConfig).is_compatible 512 512 1 77 = some (true, d1)
      ∧ (⟨.dict [("sample", ([1, 4, 64, 64], [2, 4, 64, 64], [4, 4, 96, 96])),
          ("encoder_hidden_states", ([1, 77], [2, 77], [4, 77]))],
        false, false, "sd1.5", false, true, false, 0, 4⟩
          : ModelConfig).is_compatible 640 512 1 77 = some (true, d2)
      ∧ d1 ≤ d2) := by
  constructor
  · exact c4_distance_monotone.1
      ⟨.dict [("sample", ([1, 4, 64, 64], [2, 4, 64, 64], [4, 4, 96, 96])),
          ("encoder_hidden_states", ([1, 77], [2, 77], [4, 77]))],
        false, false, "sd1.5", false, true, false, 0, 4⟩
      [] [] "sample" [1, 4] [64] [2, 4] [64] [4, 4] [96] 64 64 96 [2, 4] [64] 64 80
      (by decide) (by decide) (by decide) (by decide) (by decide) (by decide)
      (by decide) (by decide) (by decide)
  · exact c4_distance_monotone.2
      ⟨.dict [("sample", ([1, 4, 64, 64], [2, 4, 64, 64], [4, 4, 96, 96])),
          ("encoder_hidden_states", ([1, 77], [2, 77], [4, 77]))],
        false, false, "sd1.5", false, true, false, 0, 4⟩
      512 512 1 77 640 512 1 77
      [1, 4, 64, 64] [2, 4, 64, 64] [4, 4, 96, 96] [1, 77] [2, 77] [4, 77]
      1 4 64 96 64 96 77 77 2 64 64
      (by decide) (by decide) (by decide) (by decide) (by decide) (by decide)
      (by decide) (by decide) (by decide) (by decide) (by decide) (by decide)
      (by decide) (by decide) (by decide) (by decide) (by decide) (by decide)
      (by decide) (by decide) (by decide) (by decide) (by decide) (by decide)
      (by decide) (by decide) (by decide) (by decide) (by decide) (by decide)
      (by decide) (by decide) (by decide) (by decide)

/-- C5: writing any well-formed registry with write_json and reading it back
with read_json reconstructs a registry equal to the original, with every
entry config rebuilt as a ModelConfig value (the decoded type) rather than a
raw key/value map; adapter entries with a base_model reference round-trip. -/
theorem c5_registry_roundtrip (reg : Registry) : read_json (write_json reg) = some reg := by
  rw [write_json, read_json]
  exact mapValues_encode decodeCcMap _ (fun m => decodeCcMap_encode m) reg

/-- C6 counterexample: with an empty registry (so the base-model key "m" is
absent), both lookups raise KeyError (modelled none) instead of returning an
empty result. -/
theorem c6_counterexample :
    get_valid_models_from_dict ⟨"cc86", []⟩ "m" [] = none
    ∧ get_valid_models ⟨"cc86", []⟩ "m" 512 512 1 77 = none :=
  ⟨rfl, rfl⟩

theorem gvFromDictGo_filter (feed : List (String × List Int)) :
    ∀ models : List RegEntry,
    (∀ m ∈ models, (m.config.is_compatible_from_dict feed).isSome = true) →
    gvFromDictGo feed models
      = some (models.filter (compatValid feed),
          (models.filter (compatValid feed)).map (compatDist feed)) := by
  intro models
  induction models with
  | nil => intro _; rfl
  | cons m rest ih =>
    intro h
    have hm := h m (List.mem_cons_self _ _)
    cases hq : m.config.is_compatible_from_dict feed with
    | none => rw [hq] at hm; exact absurd hm (by simp)
    | some r =>
      obtain ⟨valid, dist⟩ := r
      rw [gvFromDictGo, hq, ih (fun x hx => h x (List.mem_cons_of_mem _ hx))]
      have hv : compatValid feed m = valid := by rw [compatValid, hq]
      have hd : compatDist feed m = dist := by rw [compatDist, hq]
      cases valid with
      | true => simp [List.filter_cons, hv, hd]
      | false => simp [List.filter_cons, hv]

theorem gvScalarGo_filter (width height batch_size max_embedding : Int) :
    ∀ models : List RegEntry,
    (∀ m ∈ models,
      (m.config.is_compatible width height batch_size max_embedding).isSome = true) →
    gvScalarGo width height batch_size max_embedding models
      = some (models.filter (compatValidScalar width height batch_size max_embedding),
          (models.filter (compatValidScalar width height batch_size max_embedding)).map
            (compatDistScalar width height batch_size max_embedding)) := by
  intro models
  induction models with
  | nil => intro _; rfl
  | cons m rest ih =>
    intro h
    have hm := h m (List.mem_cons_self _ _)
    cases hq : m.config.is_compatible width height batch_size max_embedding with
    | none => rw [hq] at hm; exact absurd hm (by simp)
    | some r =>
      obtain ⟨valid, dist⟩ := r
      rw [gvScalarGo, hq, ih (fun x hx => h x (List.mem_cons_of_mem _ hx))]
      have hv : compatValidScalar width height batch_size max_embedding m = valid := by
        rw [compatValidScalar, hq]
      have hd : compatDistScalar width height batch_size max_embedding m = dist := by
        rw [compatDistScalar, hq]
      cases valid with
      | true => simp [List.filter_cons, hv, hd]
      | false => simp [List.filter_cons, hv]

/-- C6 (amended): get_valid_models and get_valid_models_from_dict raise
KeyError when the base-model key is absent from the current
compute-capability map (including when the cc key itself is absent, making
that map empty); when the base-model key is present and every entry evaluates
without exception, they return exactly the accepted entries in list order
together with their parallel distances — in particular an empty result when
the entry list is empty or no entry is compatible. -/
theorem c6_lookup_result :
    (∀ (st : MMState) (base : String) (feed : List (String × List Int)),
      alookup (available_models st) base = none →
      get_valid_models_from_dict st base feed = none)
    ∧ (∀ (st : MMState) (base : String) (width height batch_size max_embedding : Int),
      alookup (available_models st) base = none →
      get_valid_models st base width height batch_size max_embedding = none)
    ∧ (∀ (st : MMState) (base : String) (feed : List (String × List Int))
        (models : List RegEntry),
      alookup (available_models st) base = some models →
      (∀ m ∈ models, (m.config.is_compatible_from_dict feed).isSome = true) →
      get_valid_models_from_dict st base feed
        = some (models.filter (compatValid feed),
            (models.filter (compatValid feed)).map (compatDist feed)))
    ∧ (∀ (st : MMState) (base : String) (width height batch_size max_embedding : Int)
        (models : List RegEntry),
      alookup (available_models st) base = some models →
      (∀ m ∈ models,
        (m.config.is_compatible width height batch_size max_embedding).isSome = true) →
      get_valid_models st base width height batch_size max_embedding
        = some (models.filter (compatValidScalar width height batch_size max_embedding),
            (models.filter (compatValidScalar width height batch_size max_embedding)).map
              (compatDistScalar width height batch_size max_embedding))) := by
  refine ⟨?_, ?_, ?_, ?_⟩
  · intro st base feed h
    rw [get_valid_models_from_dict, h]
  · intro st base width height batch_size max_embedding h
    rw [get_valid_models, h]
  · intro st base feed models h hdef
    rw [get_valid_models_from_dict, h]
    exact gvFromDictGo_filter feed models hdef
  · intro st base width height batch_size max_embedding models h hdef
    rw [get_valid_models, h]
    exact gvScalarGo_filter width height batch_size max_embedding models hdef

/-- C6 witness: the absent-key failures and, on a two-entry list where only
the first entry is compatible, the filtered results of both query forms. -/
theorem c6_lookup_result_witness :
    get_valid_models_from_dict
        ⟨"cc86", [("cc86", [("m",
          [⟨"a.trt", none, ⟨.dict [("sample", ([1, 4, 64, 64], [2, 4, 64, 64], [4, 4, 96, 96])),
              ("encoder_hidden_states", ([1, 77], [2, 77], [4, 77]))],
            false, false, "sd1.5", false, true, false, 0, 4⟩⟩,
           ⟨"b.trt", none, ⟨.dict [("sample", ([1, 4, 32, 32], [1, 4, 32, 32], [1, 4, 32, 32])),
              ("encoder_hidden_states", ([1, 77], [2, 77], [4, 77]))],
            false, false, "sd1.5", false, true, false, 0, 4⟩⟩])])]⟩
        "absent" [("sample", [2, 4, 64, 64])] = none
    ∧ get_valid_models
        ⟨"cc86", [("cc86", [("m",
          [⟨"a.trt", none, ⟨.dict [("sample", ([1, 4, 64, 64], [2, 4, 64, 64], [4, 4, 96, 96])),
              ("encoder_hidden_states", ([1, 77], [2, 77], [4, 77]))],
            false, false, "sd1.5", false, true, false, 0, 4⟩⟩,
           ⟨"b.trt", none, ⟨.dict [("sample", ([1, 4, 32, 32], [1, 4, 32, 32], [1, 4, 32, 32])),
              ("encoder_hidden_states", ([1, 77], [2, 77], [4, 77]))],
            false, false, "sd1.5", false, true, false, 0, 4⟩⟩])])]⟩
        "absent" 512 512 1 77 = none
    ∧ get_valid_models_from_dict
        ⟨"cc86", [("cc86", [("m",
          [⟨"a.trt", none, ⟨.dict [("sample", ([1, 4, 64, 64], [2, 4, 64, 64], [4, 4, 96, 96])),
              ("encoder_hidden_states", ([1, 77], [2, 77], [4, 77]))],
            false, false, "sd1.5", false, true, false, 0, 4⟩⟩,
           ⟨"b.trt", none, ⟨.dict [("sample", ([1, 4, 32, 32], [1, 4, 32, 32], [1, 4, 32, 32])),
              ("encoder_hidden_states", ([1, 77], [2, 77], [4, 77]))],
            false, false, "sd1.5", false, true, false, 0, 4⟩⟩])])]⟩
        "m" [("sample", [2, 4, 64, 64])]
      = some ([⟨"a.trt", none, ⟨.dict [("sample", ([1, 4, 64, 64], [2, 4, 64, 64], [4, 4, 96, 96])),
              ("encoder_hidden_states", ([1, 77], [2, 77], [4, 77]))],
            false, false, "sd1.5", false, true, false, 0, 4⟩⟩,
           ⟨"b.trt", none, ⟨.dict [("sample", ([1, 4, 32, 32], [1, 4, 32, 32], [1, 4, 32, 32])),
              ("encoder_hidden_states", ([1, 77], [2, 77], [4, 77]))],
            false, false, "sd1.5", false, true, false, 0, 4⟩⟩].filter
              (compatValid [("sample", [2, 4, 64, 64])]),
          ([⟨"a.trt", none, ⟨.dict [("sample", ([1, 4, 64, 64], [2, 4, 64, 64], [4, 4, 96, 96])),
              ("encoder_hidden_states", ([1, 77], [2, 77], [4, 77]))],
            false, false, "sd1.5", false, true, false, 0, 4⟩⟩,
           ⟨"b.trt", none, ⟨.dict [("sample", ([1, 4, 32, 32], [1, 4, 32, 32], [1, 4, 32, 32])),
              ("encoder_hidden_states", ([1, 77], [2, 77], [4, 77]))],
            false, false, "sd1.5", false, true, false, 0, 4⟩⟩].filter
              (compatValid [("sample", [2, 4, 64, 64])])).map
              (compatDist [("sample", [2, 4, 64, 64])]))
    ∧ get_valid_models
        ⟨"cc86", [("cc86", [("m",
          [⟨"a.trt", none, ⟨.dict [("sample", ([1, 4, 64, 64], [2, 4, 64, 64], [4, 4, 96, 96])),
              ("encoder_hidden_states", ([1, 77], [2, 77], [4, 77]))],
            false, false, "sd1.5", false, true, false, 0, 4⟩⟩,
           ⟨"b.trt", none, ⟨.dict [("sample", ([1, 4, 32, 32], [1, 4, 32, 32], [1, 4, 32, 32])),
              ("encoder_hidden_states", ([1, 77], [2, 77], [4, 77]))],
            false, false, "sd1.5", false, true, false, 0, 4⟩⟩])])]⟩
        "m" 512 512 1 77
      = some ([⟨"a.trt", none, ⟨.dict [("sample", ([1, 4, 64, 64], [2, 4, 64, 64], [4, 4, 96, 96])),
              ("encoder_hidden_states", ([1, 77], [2, 77], [4, 77]))],
            false, false, "sd1.5", false, true, false, 0, 4⟩⟩,
           ⟨"b.trt", none, ⟨.dict [("sample", ([1, 4, 32, 32], [1, 4, 32, 32], [1, 4, 32, 32])),
              ("encoder_hidden_states", ([1, 77], [2, 77], [4, 77]))],
            false, false, "sd1.5", false, true, false, 0, 4⟩⟩].filter
              (compatValidScalar 512 512 1 77),
          ([⟨"a.trt", none, ⟨.dict [("sample", ([1, 4, 64, 64], [2, 4, 64, 64], [4, 4, 96, 96])),
              ("encoder_hidden_states", ([1, 77], [2, 77], [4, 77]))],
            false, false, "sd1.5", false, true, false, 0, 4⟩⟩,
           ⟨"b.trt", none, ⟨.dict [("sample", ([1, 4, 32, 32], [1, 4, 32, 32], [1, 4, 32, 32])),
              ("encoder_hidden_states", ([1, 77], [2, 77], [4, 77]))],
            false, false, "sd1.5", false, true, false, 0, 4⟩⟩].filter
              (compatValidScalar 512 512 1 77)).map
              (compatDistScalar 512 512 1 77)) := by
  refine ⟨?_, ?_, ?_, ?_⟩
  · exact c6_lookup_result.1 _ "absent" [("sample", [2, 4, 64, 64])] (by decide)
  · exact c6_lookup_result.2.1 _ "absent" 512 512 1 77 (by decide)
  · exact c6_lookup_result.2.2.1 _ "m" [("sample", [2, 4, 64, 64])] _ (by decide) (by decide)
  · exact c6_lookup_result.2.2.2 _ "m" 512 512 1 77 _ (by decide) (by decide)

/-- C7 counterexample: two Constant nodes writing the same canonical engine
weight name "w" trigger the add_to_map assertion on the second write, but the
bare except around the Constant branch swallows it, and the whole refit build
completes with ok instead of aborting. -/
theorem c7_counterexample :
    add_to_map [("w", some ⟨"float32", [1], 7⟩)] "w" ⟨"float32", [1], 7⟩
      = .error "AssertionError: refit_dict[name] is None"
    ∧ refitBuild
        [⟨"Constant", "c", [], [⟨"w", true, ⟨"float32", [1], 7⟩⟩]⟩,
         ⟨"Constant", "c", [], [⟨"w", true, ⟨"float32", [1], 7⟩⟩]⟩]
        [⟨"Constant", "c", [], [⟨"w", true, ⟨"float32", [1], 7⟩⟩]⟩,
         ⟨"Constant", "c", [], [⟨"w", true, ⟨"float32", [1], 7⟩⟩]⟩]
        [("w", WRole.other)]
      = .ok [("w", some ⟨"float32", [1], 7⟩)] :=
  ⟨rfl, rfl⟩

/-- C7 (amended): a duplicate canonical weight name is fatal in the initial
scan of engine weights (two layer/role pairs canonicalizing to one name abort
the build) and when a second write arrives through the generic node path (op
neither Constant nor Conv, where add_to_map is unguarded); but for
constant-producer and convolution nodes the add_to_map call sits inside a
bare try/except, so the assertion failure is caught, logged, and processing
returns with the dict unchanged. -/
theorem c7_duplicate_weight_handling :
    (∀ (ws : List (String × WRole)) (orig refit : List RNode) (nm : NameMap),
      buildNameMap orig refit = .ok nm →
      ¬ (ws.map (fun pr => change_trt_layer_name pr.1 pr.2)).Nodup →
      ∃ msg, refitBuild orig refit ws = .error msg)
    ∧ (∀ (nm : NameMap) (d : RefitDict) (n : RNode) (inp : RTensor)
        (rest : List RTensor) (w : NpArray),
      n.op ≠ "Constant" → n.op ≠ "Conv" → n.inputs = inp :: rest →
      inp.isConst = true → alookup d (map_name nm inp.name) = some (some w) →
      processNode nm d n = .error "AssertionError: refit_dict[name] is None")
    ∧ (∀ (nm : NameMap) (d : RefitDict) (n : RNode) (out : RTensor)
        (outs : List RTensor) (w : NpArray),
      n.op = "Constant" → n.outputs = out :: outs →
      alookup d (map_name nm out.name) = some (some w) →
      processNode nm d n = .ok d)
    ∧ (∀ (nm : NameMap) (d : RefitDict) (n : RNode) (i1 i2 : RTensor) (w : NpArray),
      n.op = "Conv" → n.inputs.get? 1 = some i1 → n.inputs.get? 2 = some i2 →
      i1.isConst = true → i2.isConst = false →
      alookup d (map_name nm (n.name ++ "_TRTKERNEL")) = some (some w) →
      processNode nm d n = .ok d) := by
  refine ⟨?_, ?_, ?_, ?_⟩
  · intro ws orig refit nm hbm hdup
    cases hinit : initRefitDict ws with
    | ok d =>
      exact absurd (initRefitDictGo_ok_nodup ws [] d hinit).1 hdup
    | error msg =>
      refine ⟨msg, ?_⟩
      rw [refitBuild, hbm, hinit]
  · intro nm d n inp rest w hc hv hinputs hconst hlook
    rw [processNode, if_neg hc, if_neg hv, hinputs, processOtherInputs]
    rw [hconst]
    simp only [if_true]
    rw [add_to_map, hlook]
  · intro nm d n out outs w hop houts hlook
    rw [processNode, if_pos hop, houts]
    simp only [List.head?_cons]
    cases hc : out.isConst with
    | true =>
      have : valuesOf out = .ok out.values := by rw [valuesOf, if_pos hc]
      rw [this]
      simp only [Except.bind]
      rw [add_to_map, hlook, catchD]
    | false =>
      have : valuesOf out = .error "AttributeError: values" := by
        rw [valuesOf, if_neg (by simp [hc])]
      rw [this]
      simp only [Except.bind]
      rw [catchD]
  · intro nm d n i1 i2 w hop hg1 hg2 h1c h2c hlook
    rw [processNode, if_neg (by rw [hop]; decide), if_pos hop, hg1, hg2]
    simp only [h1c, h2c, if_true, Bool.false_eq_true, if_false]
    simp only [add_to_map, hlook, catchD]

/-- C7 witness: concrete instances of all four duplicate-handling behaviors. -/
theorem c7_duplicate_weight_handling_witness :
    (∃ msg, refitBuild [] [] [("w", WRole.other), ("w", WRole.other)] = .error msg)
    ∧ processNode [] [("x", some ⟨"float32", [], 1⟩)]
        ⟨"Gemm", "g", [⟨"x", true, ⟨"float32", [], 1⟩⟩], []⟩
      = .error "AssertionError: refit_dict[name] is None"
    ∧ processNode [] [("x", some ⟨"float32", [], 1⟩)]
        ⟨"Constant", "c", [], [⟨"x", true, ⟨"float32", [], 1⟩⟩]⟩
      = .ok [("x", some ⟨"float32", [], 1⟩)]
    ∧ processNode [] [("conv1_TRTKERNEL", some ⟨"float32", [], 1⟩)]
        ⟨"Conv", "conv1", [⟨"in0", false, ⟨"float32", [], 1⟩⟩,
          ⟨"k0", true, ⟨"float32", [], 1⟩⟩, ⟨"b0", false, ⟨"float32", [], 1⟩⟩], []⟩
      = .ok [("conv1_TRTKERNEL", some ⟨"float32", [], 1⟩)] := by
  refine ⟨?_, ?_, ?_, ?_⟩
  · exact c7_duplicate_weight_handling.1 [("w", WRole.other), ("w", WRole.other)] [] [] []
      rfl (by decide)
  · exact c7_duplicate_weight_handling.2.1 [] _ _ ⟨"x", true, ⟨"float32", [], 1⟩⟩ [] ⟨"float32", [], 1⟩
      (by decide) (by decide) rfl rfl (by decide)
  · exact c7_duplicate_weight_handling.2.2.1 [] _ _ ⟨"x", true, ⟨"float32", [], 1⟩⟩ [] ⟨"float32", [], 1⟩
      rfl rfl (by decide)
  · exact c7_duplicate_weight_handling.2.2.2 [] _ _
      ⟨"k0", true, ⟨"float32", [], 1⟩⟩ ⟨"b0", false, ⟨"float32", [], 1⟩⟩ ⟨"float32", [], 1⟩
      rfl (by decide) (by decide) rfl rfl (by decide)

/-- C8: walking two toposorted graphs, the first aligned pair with different
operator kinds aborts the name-map construction with the assertion error,
carrying exactly the mappings produced for the pairs before it and none for
subsequent nodes; when every aligned pair has equal operator kinds (and the
per-node accesses are in range), no such error is raised and a map is
produced. -/
theorem c8_alignment :
    (∀ (orig refit : List RNode) (i : Nat) (hi : i < orig.length)
        (hir : i < refit.length) (m : NameMap),
      buildNameMapGo [] (orig.take i) (refit.take i) = .ok m →
      (orig.get ⟨i, hi⟩).op ≠ (refit.get ⟨i, hir⟩).op →
      buildNameMap orig refit = .error ("AssertionError: node.op == refit_node.op", m))
    ∧ (∀ (orig refit : List RNode), orig.length ≤ refit.length →
      (∀ pr ∈ List.zip orig refit, pr.1.op = pr.2.op ∧ pairOk pr.1 pr.2 = true) →
      ∃ m, buildNameMap orig refit = .ok m) := by
  constructor
  · intro orig refit i hi hir m htake hne
    have hlen : (orig.take i).length = (refit.take i).length := by
      simp [List.length_take, Nat.min_eq_left (le_of_lt hi), Nat.min_eq_left (le_of_lt hir)]
    have hsplit := buildNameMapGo_append (orig.drop i) (refit.drop i)
      (orig.take i) (refit.take i) [] m hlen htake
    rw [List.take_append_drop, List.take_append_drop] at hsplit
    rw [buildNameMap, hsplit]
    rw [List.drop_eq_getElem_cons hi, List.drop_eq_getElem_cons hir]
    simp only [List.get_eq_getElem] at hne
    rw [buildNameMapGo, buildNameMapStep, if_pos hne]
  · intro orig refit hlen hall
    exact buildNameMapGo_ok orig refit [] hlen hall

/-- C8 witness: a mismatch at index 1 aborts with only the index-0 mapping;
matching single-node graphs align successfully. -/
theorem c8_alignment_witness :
    buildNameMap
        [⟨"Constant", "c1", [], [⟨"w", false, ⟨"float32", [], 0⟩⟩]⟩,
         ⟨"Relu", "r", [], []⟩]
        [⟨"Constant", "c1r", [], [⟨"w2", false, ⟨"float32", [], 0⟩⟩]⟩,
         ⟨"Add", "a", [], []⟩]
      = .error ("AssertionError: node.op == refit_node.op", [("w2", "w")])
    ∧ ∃ m, buildNameMap
        [⟨"Constant", "c1", [], [⟨"w", false, ⟨"float32", [], 0⟩⟩]⟩]
        [⟨"Constant", "c1r", [], [⟨"w2", false, ⟨"float32", [], 0⟩⟩]⟩]
      = .ok m := by
  constructor
  · exact c8_alignment.1
      [⟨"Constant", "c1", [], [⟨"w", false, ⟨"float32", [], 0⟩⟩]⟩, ⟨"Relu", "r", [], []⟩]
      [⟨"Constant", "c1r", [], [⟨"w2", false, ⟨"float32", [], 0⟩⟩]⟩, ⟨"Add", "a", [], []⟩]
      1 (by decide) (by decide) [("w2", "w")] rfl (by decide)
  · exact c8_alignment.2
      [⟨"Constant", "c1", [], [⟨"w", false, ⟨"float32", [], 0⟩⟩]⟩]
      [⟨"Constant", "c1r", [], [⟨"w2", false, ⟨"float32", [], 0⟩⟩]⟩]
      (by decide) (by decide)

/-- C9 counterexample: calling add_entry twice with the same model name on an
empty registry produces two entries under the same key with the identical
derived filepath m_cc86.trt, violating the claimed duplicate-freedom
invariant. -/
theorem c9_counterexample :
    ((alookup ((add_entry
        (add_entry ⟨"cc86", []⟩ "m" (.dict []) false false "sd1.5" false false 0 4 false)
        "m" (.dict []) false false "sd1.5" false false 0 4 false).all_models)
        "cc86").bind (fun ccMap => alookup ccMap "m"))
      = some [⟨"m_cc86.trt", none, ⟨.dict [], false, false, "sd1.5", false, false, false, 0, 4⟩⟩,
              ⟨"m_cc86.trt", none, ⟨.dict [], false, false, "sd1.5", false, false, false, 0, 4⟩⟩]
    ∧ ¬ (["m_cc86.trt", "m_cc86.trt"] : List String).Nodup := by
  refine ⟨by decide, by decide⟩

/-- C9 (amended): update preserves per-key duplicate-freedom of filepaths
(surviving entry lists are kept verbatim) and add_lora_entry installs a
single-element list (trivially duplicate-free), but add_entry appends
unconditionally with a filepath derived only from the model name and the cc
tag, so repeated calls with one name create duplicates. -/
theorem c9_registry_ops :
    (∀ (diskFiles : List String) (reg : Registry),
      nodupFilepaths reg → nodupFilepaths (update diskFiles reg))
    ∧ (∀ (st : MMState) (base lora_name path : String) (fp32 : Bool) (bm : String)
        (inpaint : Bool) (vram hid : Int) (st2 : MMState),
      add_lora_entry st base lora_name path fp32 bm inpaint vram hid = some st2 →
      ∃ ccMap, alookup st2.all_models st.cc = some ccMap
        ∧ ∃ e, alookup ccMap lora_name = some [e] ∧ e.filepath = path)
    ∧ (∀ (st : MMState) (model_name : String) (profile : ProfileData)
        (ss f32 : Bool) (bm : String) (inp rf : Bool) (vram hid : Int) (lo : Bool),
      ∃ ccMap, alookup (add_entry st model_name profile ss f32 bm inp rf
          vram hid lo).all_models st.cc = some ccMap
        ∧ ∃ entry, alookup ccMap model_name
            = some ((alookup ((alookup st.all_models st.cc).getD []) model_name).getD []
                ++ [entry])
          ∧ entry.filepath = model_name ++ "_" ++ st.cc ++ ".trt") := by
  refine ⟨?_, ?_, ?_⟩
  · intro diskFiles reg h
    intro p hp q hq
    rw [update] at hp
    simp only [List.mem_map] at hp
    obtain ⟨r, hr, hpr⟩ := hp
    subst hpr
    simp only [List.mem_filter] at hq
    exact h r hr q hq.1
  · intro st base lora_name path fp32 bm inpaint vram hid st2 h
    rw [add_lora_entry] at h
    cases hcc : alookup st.all_models st.cc with
    | none => rw [hcc] at h; exact absurd h (by simp)
    | some ccMap =>
      rw [hcc] at h
      simp only [Option.some_inj] at h
      subst h
      refine ⟨_, alookup_aset_self _ _ _, ⟨⟨path, some base,
        ⟨.raw [[], [], []], false, fp32, bm, inpaint, true, true, vram, hid⟩⟩,
        alookup_aset_self _ _ _, rfl⟩⟩
  · intro st model_name profile ss f32 bm inp rf vram hid lo
    refine ⟨_, alookup_aset_self _ _ _, ⟨⟨get_trt_path st.cc model_name, none,
      ⟨profile, ss, f32, bm, inp, rf, lo, vram, hid⟩⟩,
      alookup_aset_self _ _ _, rfl⟩⟩

/-- C9 witness: the three registry operations at concrete states. -/
theorem c9_registry_ops_witness :
    nodupFilepaths (update ["a.trt"] [("cc86", [("m",
      [⟨"a.trt", none, ⟨.dict [], false, false, "sd1.5", false, false, false, 0, 4⟩⟩])])])
    ∧ (∃ ccMap, alookup ((⟨"cc86",
        [("cc86", [("lora1", [⟨"p.trt", some "base",
          ⟨.raw [[], [], []], false, false, "sd1.5", false, true, true, 0, 4⟩⟩])])]⟩
          : MMState).all_models) "cc86" = some ccMap
        ∧ ∃ e, alookup ccMap "lora1" = some [e] ∧ e.filepath = "p.trt")
    ∧ (∃ ccMap, alookup (add_entry ⟨"cc86", []⟩ "m" (.dict []) false false "sd1.5"
          false false 0 4 false).all_models "cc86" = some ccMap
        ∧ ∃ entry, alookup ccMap "m"
            = some ((alookup ((alookup ([] : Registry) "cc86").getD []) "m").getD []
                ++ [entry])
          ∧ entry.filepath = "m" ++ "_" ++ "cc86" ++ ".trt") := by
  have h0 : nodupFilepaths [("cc86", [("m",
      [⟨"a.trt", none, ⟨.dict [], false, false, "sd1.5", false, false, false, 0, 4⟩⟩])])] := by
    intro p hp q hq
    simp only [List.mem_singleton] at hp
    subst hp
    simp only [List.mem_singleton] at hq
    subst hq
    simp
  refine ⟨c9_registry_ops.1 ["a.trt"] _ h0, ?_, ?_⟩
  · exact c9_registry_ops.2.1 ⟨"cc86", [("cc86", [])]⟩ "base" "lora1" "p.trt"
      false "sd1.5" false 0 4 _ (by decide)
  · exact c9_registry_ops.2.2 ⟨"cc86", []⟩ "m" (.dict []) false false "sd1.5" false false 0 4 false

/-- C10: every adapter entry created by add_lora_entry stores the literal
profile [[], [], []] rather than a name-keyed mapping; consequently
is_compatible raises on such a config for every query and
is_compatible_from_dict raises for every non-empty request, and the matchers
are defined only when the queried input names are keys of the profile (the
single-input dict query and both fixed names of the scalar query demand the
corresponding profile keys). -/
theorem c10_lora_profile_totality :
    (∀ (st : MMState) (base lora_name path : String) (fp32 : Bool) (bm : String)
        (inpaint : Bool) (vram hid : Int) (st2 : MMState),
      add_lora_entry st base lora_name path fp32 bm inpaint vram hid = some st2 →
      ∃ ccMap e, alookup st2.all_models st.cc = some ccMap
        ∧ alookup ccMap lora_name = some [e]
        ∧ e.config.profile = .raw [[], [], []])
    ∧ (∀ (cfg : ModelConfig) (shapes : List (List Int)), cfg.profile = .raw shapes →
        ∀ (k : String) (v : List Int) (rest : List (String × List Int)),
          cfg.is_compatible_from_dict ((k, v) :: rest) = none)
    ∧ (∀ (cfg : ModelConfig) (shapes : List (List Int)), cfg.profile = .raw shapes →
        ∀ (width height batch_size max_embedding : Int),
          cfg.is_compatible width height batch_size max_embedding = none)
    ∧ (∀ (cfg : ModelConfig) (k : String) (v : List Int) (r : Bool × Rat),
        cfg.is_compatible_from_dict [(k, v)] = some r →
        ∃ t, tripleOf cfg.profile k = some t)
    ∧ (∀ (cfg : ModelConfig) (width height batch_size max_embedding : Int) (r : Bool × Rat),
        cfg.is_compatible width height batch_size max_embedding = some r →
        (∃ t, tripleOf cfg.profile "sample" = some t)
          ∧ ∃ t, tripleOf cfg.profile "encoder_hidden_states" = some t) := by
  refine ⟨?_, ?_, ?_, ?_, ?_⟩
  · intro st base lora_name path fp32 bm inpaint vram hid st2 h
    rw [add_lora_entry] at h
    cases hcc : alookup st.all_models st.cc with
    | none => rw [hcc] at h; exact absurd h (by simp)
    | some ccMap =>
      rw [hcc] at h
      simp only [Option.some_inj] at h
      subst h
      exact ⟨_, ⟨path, some base,
          ⟨.raw [[], [], []], false, fp32, bm, inpaint, true, true, vram, hid⟩⟩,
        alookup_aset_self _ _ _, alookup_aset_self _ _ _, rfl⟩
  · intro cfg shapes hprof k v rest
    rw [ModelConfig.is_compatible_from_dict, compatFromDictGo, hprof]
    rfl
  · intro cfg shapes hprof width height batch_size max_embedding
    rw [ModelConfig.is_compatible, hprof]
    rfl
  · intro cfg k v r h
    cases htr : tripleOf cfg.profile k with
    | none =>
      rw [ModelConfig.is_compatible_from_dict, compatFromDictGo, htr] at h
      exact absurd h (by simp)
    | some t => exact ⟨t, rfl⟩
  · intro cfg width height batch_size max_embedding r h
    cases h1 : tripleOf cfg.profile "sample" with
    | none =>
      rw [ModelConfig.is_compatible, h1] at h
      cases h2 : tripleOf cfg.profile "encoder_hidden_states" with
      | none => rw [h2] at h; exact absurd h (by simp)
      | some t2 =>
        rw [h2] at h
        obtain ⟨a, b, c⟩ := t2
        exact absurd h (by simp)
    | some t1 =>
      cases h2 : tripleOf cfg.profile "encoder_hidden_states" with
      | none =>
        rw [ModelConfig.is_compatible, h1, h2] at h
        obtain ⟨a, b, c⟩ := t1
        exact absurd h (by simp)
      | some t2 => exact ⟨⟨t1, rfl⟩, ⟨t2, rfl⟩⟩

/-- C10 witness: concrete instances of all five conjuncts. -/
theorem c10_lora_profile_totality_witness :
    (∃ ccMap e, alookup ((⟨"cc86",
        [("cc86", [("lora2", [⟨"q.trt", some "base2",
          ⟨.raw [[], [], []], false, true, "sdxl", false, true, true, 0, 4⟩⟩])])]⟩
          : MMState).all_models) "cc86" = some ccMap
        ∧ alookup ccMap "lora2" = some [e]
        ∧ e.config.profile = .raw [[], [], []])
    ∧ (⟨.raw [[], [], []], false, true, "sdxl", false, true, true, 0, 4⟩
        : ModelConfig).is_compatible_from_dict [("sample", [2, 4, 64, 64])] = none
    ∧ (⟨.raw [[], [], []], false, true, "sdxl", false, true, true, 0, 4⟩
        : ModelConfig).is_compatible 512 512 1 77 = none
    ∧ (∃ t, tripleOf (ProfileData.dict [("x", ([1], [1], [1]))]) "x" = some t)
    ∧ ((∃ t, tripleOf (ProfileData.dict
          [("sample", ([1, 4, 64, 64], [2, 4, 64, 64], [4, 4, 96, 96])),
           ("encoder_hidden_states", ([1, 77], [2, 77], [4, 77]))]) "sample" = some t)
        ∧ ∃ t, tripleOf (ProfileData.dict
          [("sample", ([1, 4, 64, 64], [2, 4, 64, 64], [4, 4, 96, 96])),
           ("encoder_hidden_states", ([1, 77], [2, 77], [4, 77]))])
            "encoder_hidden_states" = some t) := by
  refine ⟨?_, ?_, ?_, ?_, ?_⟩
  · exact c10_lora_profile_totality.1 ⟨"cc86", [("cc86", [])]⟩ "base2" "lora2" "q.trt"
      true "sdxl" false 0 4 _ (by decide)
  · exact c10_lora_profile_totality.2.1 _ [[], [], []] rfl "sample" [2, 4, 64, 64] []
  · exact c10_lora_profile_totality.2.2.1 _ [[], [], []] rfl 512 512 1 77
  · exact c10_lora_profile_totality.2.2.2.1
      ⟨.dict [("x", ([1], [1], [1]))], false, false, "m", false, false, false, 0, 4⟩
      "x" [1] (true, 0) (by
        simp [ModelConfig.is_compatible_from_dict, compatFromDictGo, tripleOf, alookup])
  · exact c10_lora_profile_totality.2.2.2.2
      ⟨.dict [("sample", ([1, 4, 64, 64], [2, 4, 64, 64], [4, 4, 96, 96])),
        ("encoder_hidden_states", ([1, 77], [2, 77], [4, 77]))],
        false, false, "m", false, false, false, 0, 4⟩
      512 512 1 77 (true, 32) (by
        simp [ModelConfig.is_compatible, tripleOf, alookup]
        norm_num)

end ComfyTrt
